import Mathlib

/-!
Verification of the agent-orchestration core of this repository: the Step
Executor and Plan Runner (src/agents/executor.py), the Orchestrator pipeline
with its recovery and outer-retry loops (src/agents/orchestrator.py), the
fallback Verifier (src/agents/verifier.py), the fallback Planner
(src/agents/planner.py), and the Tool Registry (src/tools/base.py).

The shallow embedding below translates the Python source into executable Lean
definitions.  Python machine data is modelled as follows: strings as `String`,
lists as `List`, floats as exact rationals (`Rat`), dicts keyed by step number
as functions `Nat -> Option _` (matching dict lookup/overwrite), and
`Optional[T]` as `Option T`.  Wall-clock time fields
(`execution_time_ms`, `total_execution_time_ms`, `total_time_ms`) are real-time
observations and are not modelled; backoff waits are instead recorded
symbolically in an execution trace so that retry/backoff claims are statable.
External collaborators (the text-generation service and the two network APIs)
are modelled as oracle parameters: a tool invocation is a function from the
parameter bundle and the attempt index to an outcome, and the LLM-backed
planner/verifier are oracle functions supplied to the orchestrator model.

The `models` module of the repository is not part of the provided sources
(only its importers are), so the plain data classes it declares are modelled
from the spec, as noted on each of them.
-/

/-- Modelled from the spec: the tool identifier enumeration of the missing
`models` module (spec section 3, a closed set with one repository-search and
one weather member; the sources reference exactly `ToolType.GITHUB` and
`ToolType.WEATHER`). -/
inductive ToolType
  | github
  | weather
deriving DecidableEq, Repr

/-- The string value of a tool identifier, as used for registry logging and
dict keys in `verifier.py` (`tool_result.tool.value`). -/
def ToolType.value : ToolType → String
  | .github => "github"
  | .weather => "weather"

/-- Modelled from the spec: the step status enumeration of the missing
`models` module (spec section 3: `enum{PENDING, COMPLETED, FAILED}`). -/
inductive StepStatus
  | pending
  | completed
  | failed
deriving DecidableEq, Repr

/-- A parameter value inside a plan step's parameter mapping (the fallback
planner only ever stores strings and small integers). -/
inductive ParamValue
  | str (s : String)
  | nat (n : Nat)
deriving DecidableEq, Repr

/-- A plan step's parameter bundle (`parameters: mapping of string to value`). -/
abbrev Params := List (String × ParamValue)

/-- Modelled from the spec: one repository entry of a repository-search
payload (spec section 6: `{name, full_name, description, stars, forks,
language, url}`). -/
structure Repo where
  name : String
  full_name : String
  description : Option String
  stars : Nat
  forks : Nat
  language : Option String
  url : String
deriving DecidableEq, Repr

/-- Modelled from the spec: a weather payload (spec section 6). -/
structure WeatherInfo where
  city : String
  country : String
  temperature_celsius : Rat
  temperature_fahrenheit : Rat
  feels_like_celsius : Rat
  humidity : Nat
  description : String
  wind_speed_mps : Rat
  visibility_km : Rat
deriving DecidableEq, Repr

/-- The structured payload carried by a successful tool outcome, keyed in the
verifier by the producing tool.  A `Python` payload dict is non-empty here; a
missing payload is `Option.none` at the use site. -/
inductive ToolData
  | github (total_count : Nat) (repositories : List Repo)
  | weather (w : WeatherInfo)
deriving DecidableEq, Repr

/-- Modelled from the spec: the Tool Outcome record of the missing `models`
module (spec section 3); the wall-clock `execution_time_ms` field is not
modelled. -/
structure ToolResult where
  tool : ToolType
  success : Bool
  data : Option ToolData := none
  error : Option String := none
deriving DecidableEq, Repr

/-- Modelled from the spec: the Step Result record of the missing `models`
module (spec section 3).  Field defaults mirror the construction sites in
`executor.py`, which omit `tool_result`, `retry_count` and `error_message`
freely (spec: `tool_result` optional, `retry_count` an integer that is 0 when
no retry happened, `error_message` optional). -/
structure StepResult where
  step_number : Nat
  status : StepStatus
  tool_result : Option ToolResult := none
  retry_count : Nat := 0
  error_message : Option String := none
deriving DecidableEq, Repr

/-- Modelled from the spec: a Plan Step of the missing `models` module
(spec section 3). -/
structure PlanStep where
  step_number : Nat
  description : String
  tool : ToolType
  parameters : Params
  depends_on : List Nat
deriving DecidableEq, Repr

/-- Modelled from the spec: an Execution Plan of the missing `models` module
(spec section 3). -/
structure ExecutionPlan where
  task_summary : String
  steps : List PlanStep
  reasoning : String
deriving DecidableEq, Repr

/-- Modelled from the spec: the Run Result of the missing `models` module
(spec section 3); the wall-clock `total_execution_time_ms` field is not
modelled. -/
structure ExecutionResult where
  plan : ExecutionPlan
  step_results : List StepResult
  success : Bool
  partial_success : Bool
deriving DecidableEq, Repr

/-- The `data` mapping of the verifier's structured final output, keyed by the
tool identifier's string value (overwrite on duplicate key, like the Python
dict in `_build_final_output`). -/
abbrev OutputData := List (String × ToolData)

/-- The verifier's structured final output (`{"summary": ..., "data": ...}`). -/
structure FinalOutput where
  summary : String
  data : OutputData
deriving DecidableEq, Repr

/-- Modelled from the spec: the Verification Result record of the missing
`models` module (spec section 3). -/
structure VerificationResult where
  is_valid : Bool
  completeness_score : Rat
  issues : List String
  suggestions : List String
  final_output : FinalOutput
  formatted_response : String
deriving DecidableEq, Repr

/-- Modelled from the spec: the Pipeline Response of the missing `models`
module (spec section 3); the wall-clock `total_time_ms` field is not
modelled. -/
structure AgentResponse where
  task : String
  plan : ExecutionPlan
  execution : ExecutionResult
  verification : VerificationResult
  success : Bool
deriving DecidableEq, Repr

/-- The observable outcome of one `await tool.safe_execute(**step.parameters)`
call site in `ExecutorAgent._execute_step`: either a returned `ToolResult`
(`safe_execute` itself converts faults raised inside the tool body into a
failed `ToolResult`, base.py lines 49-68) or an exception raised at the call
itself (for example a keyword-argument mismatch), which the executor's own
`except` branch catches. -/
inductive AttemptOutcome
  | ok (result : ToolResult)
  | exn (msg : String)

/-- A registered tool: its identifier (a class attribute in the sources:
`GitHubTool.tool_type = ToolType.GITHUB`, `WeatherTool.tool_type =
ToolType.WEATHER`) and the environment-dependent behaviour of its
`safe_execute`, indexed by the parameter bundle and by the attempt number
within one `_execute_step` call. -/
structure Tool where
  tool_type : ToolType
  behavior : Params → Nat → AttemptOutcome

/-- The state of `ToolRegistry._tools` (base.py line 74): a mapping from tool
identifier to the registered tool. -/
def Registry := ToolType → Option Tool

/-- `ToolRegistry.register` (base.py lines 76-80): insert or overwrite the
entry keyed by the tool's identifier. -/
def ToolRegistry.register (tool : Tool) (r : Registry) : Registry :=
  fun t => if t = tool.tool_type then some tool else r t

/-- `ToolRegistry.get` (base.py lines 82-85). -/
def ToolRegistry.get (r : Registry) (t : ToolType) : Option Tool := r t

/-- `ToolRegistry.clear` (base.py lines 92-95). -/
def ToolRegistry.clear (_r : Registry) : Registry := fun _ => none

/-- A `GitHubTool()` instance with the given environment behaviour
(github_tool.py line 21: `tool_type = ToolType.GITHUB`). -/
def mkGitHubTool (b : Params → Nat → AttemptOutcome) : Tool :=
  { tool_type := ToolType.github, behavior := b }

/-- A `WeatherTool()` instance with the given environment behaviour
(weather_tool.py line 21: `tool_type = ToolType.WEATHER`). -/
def mkWeatherTool (b : Params → Nat → AttemptOutcome) : Tool :=
  { tool_type := ToolType.weather, behavior := b }

/-- `ExecutorAgent._register_tools` (executor.py lines 38-43), run by
`ExecutorAgent.__init__` and hence by every orchestrator construction: clear
the class-level registry, then register a `GitHubTool` and a `WeatherTool`. -/
def ExecutorAgent.registerTools (gb wb : Params → Nat → AttemptOutcome)
    (r : Registry) : Registry :=
  ToolRegistry.register (mkWeatherTool wb)
    (ToolRegistry.register (mkGitHubTool gb) (ToolRegistry.clear r))

/-- `ExecutorAgent.max_retries` (executor.py line 32). -/
def ExecutorAgent.max_retries : Nat := 3

/-- Python's `value or default` for an optional string: the default stands in
for `None` and also for the falsy empty string. -/
def pyOrDefault (v : Option String) (default : String) : String :=
  match v with
  | none => default
  | some s => if s.isEmpty then default else s

/-- Instrumentation of one `_execute_step` call: how many times the tool was
invoked and which backoff waits (`asyncio.sleep(1 * retry_count)` arguments,
in seconds) were performed, in order. -/
structure StepTrace where
  invocations : Nat := 0
  sleeps : List Nat := []
deriving DecidableEq, Repr

/-- The `while retry_count < self.max_retries` loop of
`ExecutorAgent._execute_step` (executor.py lines 126-155).  `remaining` is the
loop-counter difference `max_retries - retry_count`, carried structurally so
the loop is executable; `retryCount` and `lastError` are the Python locals.
On a returned unsuccessful outcome the error is recorded (possibly `none`:
`last_error = tool_result.error`), the retry counter is bumped, and a backoff
wait of `1 * retry_count` seconds happens when attempts remain; on an
exception the error message is recorded and no wait happens.  After the loop,
a FAILED result carries `last_error or "Max retries exceeded"`, where the
default stands in for a `None` last error and also for a falsy empty
string. -/
def executeStepLoop (tool : Tool) (params : Params) (stepNumber : Nat) :
    Nat → Nat → Option String → StepTrace → StepResult × StepTrace
  | 0, retryCount, lastError, trace =>
      ({ step_number := stepNumber, status := StepStatus.failed,
         retry_count := retryCount,
         error_message :=
           some (pyOrDefault lastError "Max retries exceeded") },
       trace)
  | remaining + 1, retryCount, lastError, trace =>
      match tool.behavior params retryCount with
      | AttemptOutcome.ok tr =>
          if tr.success then
            ({ step_number := stepNumber, status := StepStatus.completed,
               tool_result := some tr, retry_count := retryCount },
             { trace with invocations := trace.invocations + 1 })
          else
            executeStepLoop tool params stepNumber remaining (retryCount + 1)
              tr.error
              { invocations := trace.invocations + 1,
                sleeps :=
                  if 0 < remaining then trace.sleeps ++ [1 * (retryCount + 1)]
                  else trace.sleeps }
      | AttemptOutcome.exn m =>
          executeStepLoop tool params stepNumber remaining (retryCount + 1)
            (some m) { trace with invocations := trace.invocations + 1 }

/-- `ExecutorAgent._execute_step` (executor.py lines 103-155), instrumented
with its invocation/backoff trace.  The "Tool not found" message renders the
tool identifier by its string value. -/
def executeStepT (registry : Registry) (step : PlanStep) :
    StepResult × StepTrace :=
  match ToolRegistry.get registry step.tool with
  | none =>
      ({ step_number := step.step_number, status := StepStatus.failed,
         error_message := some ("Tool not found: " ++ step.tool.value) },
       {})
  | some tool =>
      executeStepLoop tool step.parameters step.step_number
        ExecutorAgent.max_retries 0 none {}

/-- `ExecutorAgent._execute_step`, result only. -/
def executeStep (registry : Registry) (step : PlanStep) : StepResult :=
  (executeStepT registry step).1

/-- `ExecutorAgent._dependencies_met` (executor.py lines 90-101): every
dependency must already have a recorded result whose status is COMPLETED. -/
def dependenciesMet (depends_on : List Nat)
    (completed : Nat → Option StepResult) : Bool :=
  depends_on.all fun dep =>
    match completed dep with
    | none => false
    | some r => r.status == StepStatus.completed

/-- The step loop of `ExecutorAgent.run` (executor.py lines 61-72): process
the steps in listed order, threading the `completed_steps` dict (every
processed step's result is recorded under its step number, overwriting), and
pairing each step result with its execution trace (a dependency-unmet step
never reaches `_execute_step`, so its trace is empty). -/
def runPlanAux (registry : Registry) :
    List PlanStep → (Nat → Option StepResult) → List (StepResult × StepTrace)
  | [], _ => []
  | step :: rest, completed =>
      let res :=
        if dependenciesMet step.depends_on completed then
          executeStepT registry step
        else
          ({ step_number := step.step_number, status := StepStatus.failed,
             error_message := some "Dependencies not met" },
           {})
      res :: runPlanAux registry rest
        (fun n => if n = step.step_number then some res.1 else completed n)

/-- `ExecutorAgent.run` (executor.py lines 45-88): execute all steps in order,
then classify the run (`success` iff every step completed, `partial_success`
iff some but not all did). -/
def ExecutorAgent.run (registry : Registry) (plan : ExecutionPlan) :
    ExecutionResult :=
  let step_results := (runPlanAux registry plan.steps (fun _ => none)).map
    (fun p => p.1)
  let success_count :=
    (step_results.filter fun r => r.status == StepStatus.completed).length
  let all_success := success_count == step_results.length
  { plan := plan, step_results := step_results, success := all_success,
    partial_success := decide (success_count > 0) && !all_success }

/-- Python string interpolation of an `Optional[str]`: `None` renders as
"None" (as in the issue strings of `_create_fallback_verification`). -/
def pyOptStr : Option String → String
  | some s => s
  | none => "None"

/-- Fractional decimal digits of `rem / den`, most significant first, at most
`fuel` of them, stopping at an exact expansion. -/
def fracDigits (den : Nat) : Nat → Nat → List Char
  | 0, _ => []
  | _ + 1, 0 => []
  | fuel + 1, rem =>
      Char.ofNat (48 + rem * 10 / den) :: fracDigits den fuel (rem * 10 % den)

/-- Rendering of a non-negative rational `num / den` in decimal. -/
def pyFloatStrNonneg (num den : Nat) : String :=
  let frac := fracDigits den 17 (num % den)
  toString (num / den) ++ "." ++ (if frac.isEmpty then "0" else String.mk frac)

/-- Model of Python float formatting for the numeric payload fields the
verifier interpolates into report strings: exact decimal expansion (the tool
layer rounds its numeric outputs to one decimal place, so the expansion is
exact and agrees with the float repr on all values actually produced),
truncated at 17 fractional digits otherwise. -/
def pyFloatStr (q : Rat) : String :=
  (if q < 0 then "-" else "") ++ pyFloatStrNonneg q.num.natAbs q.den

/-- Thousands grouping over a reversed digit list (helper for the star-count
format `{stars:,}`). -/
def commaRev : List Char → Nat → List Char
  | [], _ => []
  | c :: rest, k =>
      if k = 3 then ',' :: c :: commaRev rest 1
      else c :: commaRev rest (k + 1)

/-- Python's `f"{n:,}"` for a natural number: decimal digits with a comma
every three digits from the right. -/
def pyNatComma (n : Nat) : String :=
  String.mk (commaRev (toString n).data.reverse 0).reverse

/-- Insert-or-overwrite on the final output's `data` dict, preserving
insertion order like a Python dict. -/
def outputDataInsert (d : OutputData) (key : String) (v : ToolData) :
    OutputData :=
  if d.any (fun p => p.1 == key) then
    d.map fun p => if p.1 == key then (key, v) else p
  else d ++ [(key, v)]

/-- Lookup in the final output's `data` dict. -/
def outputDataGet (d : OutputData) (key : String) : Option ToolData :=
  (d.find? fun p => p.1 == key).map fun p => p.2

/-- The collection loop of `VerifierAgent._build_final_output` (verifier.py
lines 133-141): each completed step with a present payload contributes its
payload under its tool's string value. -/
def collectOutputData : List StepResult → OutputData → OutputData
  | [], acc => acc
  | r :: rest, acc =>
      if r.status != StepStatus.completed then collectOutputData rest acc
      else
        match r.tool_result with
        | none => collectOutputData rest acc
        | some tr =>
            match tr.data with
            | none => collectOutputData rest acc
            | some d => collectOutputData rest (outputDataInsert acc tr.tool.value d)

/-- `data.get("repositories", [])` on a stored payload. -/
def ToolData.repositoriesOrEmpty : ToolData → List Repo
  | .github _ repos => repos
  | .weather _ => []

/-- `data.get("city", "Unknown")` on a stored payload. -/
def ToolData.cityOr : ToolData → String
  | .weather w => w.city
  | .github _ _ => "Unknown"

/-- `data.get("country", "")` on a stored payload. -/
def ToolData.countryOr : ToolData → String
  | .weather w => w.country
  | .github _ _ => ""

/-- `data.get("temperature_celsius", "N/A")`, interpolated. -/
def ToolData.tempCStr : ToolData → String
  | .weather w => pyFloatStr w.temperature_celsius
  | .github _ _ => "N/A"

/-- `data.get("temperature_fahrenheit", "N/A")`, interpolated. -/
def ToolData.tempFStr : ToolData → String
  | .weather w => pyFloatStr w.temperature_fahrenheit
  | .github _ _ => "N/A"

/-- `data.get("feels_like_celsius", "N/A")`, interpolated. -/
def ToolData.feelsStr : ToolData → String
  | .weather w => pyFloatStr w.feels_like_celsius
  | .github _ _ => "N/A"

/-- `data.get("humidity", "N/A")`, interpolated. -/
def ToolData.humidityStr : ToolData → String
  | .weather w => toString w.humidity
  | .github _ _ => "N/A"

/-- `data.get("description", "Unknown")` on a stored payload. -/
def ToolData.descriptionOr : ToolData → String
  | .weather w => w.description
  | .github _ _ => "Unknown"

/-- `data.get("wind_speed_mps", "N/A")`, interpolated. -/
def ToolData.windStr : ToolData → String
  | .weather w => pyFloatStr w.wind_speed_mps
  | .github _ _ => "N/A"

/-- `VerifierAgent._build_final_output` (verifier.py lines 129-154). -/
def buildFinalOutput (step_results : List StepResult) : FinalOutput :=
  let data := collectOutputData step_results []
  let parts :=
    (match outputDataGet data "github" with
     | some d =>
         ["Found " ++ toString d.repositoriesOrEmpty.length ++
           " GitHub repositories"]
     | none => []) ++
    (match outputDataGet data "weather" with
     | some d => ["Weather in " ++ d.cityOr ++ ": " ++ d.tempCStr ++ "C"]
     | none => [])
  { summary :=
      if parts.isEmpty then "Task completed" else String.intercalate ". " parts,
    data := data }

/-- The banner line `"=" * 50`. -/
def eqBanner : String := String.mk (List.replicate 50 '=')

/-- The separator line `"-" * 30`. -/
def dashBanner : String := String.mk (List.replicate 30 '-')

/-- The per-repository lines of `VerifierAgent._format_response` (verifier.py
lines 170-177); a `None` description interpolates as "None". -/
def repoLines (r : Repo) : List String :=
  let desc :=
    match r.description with
    | none => "None"
    | some d => if d.length > 80 then d.take 77 ++ "..." else d
  ["  " ++ r.full_name, "    Stars: " ++ pyNatComma r.stars, "    " ++ desc, ""]

/-- `VerifierAgent._format_response` (verifier.py lines 156-199); the `task`
parameter is unused in the source as well. -/
def formatResponse (task : String) (output : FinalOutput)
    (issues : List String) : String :=
  let lines := [eqBanner, "RESULTS", eqBanner, ""]
  let lines := lines ++
    (match outputDataGet output.data "github" with
     | some d =>
         ["GITHUB REPOSITORIES:", dashBanner] ++
           (List.map repoLines (d.repositoriesOrEmpty.take 5)).flatten
     | none => [])
  let lines := lines ++
    (match outputDataGet output.data "weather" with
     | some d =>
         ["WEATHER:", dashBanner,
          "  Location: " ++ d.cityOr ++ ", " ++ d.countryOr,
          "  Temperature: " ++ d.tempCStr ++ "C / " ++ d.tempFStr ++ "F",
          "  Feels Like: " ++ d.feelsStr ++ "C",
          "  Humidity: " ++ d.humidityStr ++ "%",
          "  Conditions: " ++ d.descriptionOr,
          "  Wind Speed: " ++ d.windStr ++ " m/s", ""]
     | none => [])
  let lines := lines ++
    (if issues.isEmpty then []
     else ["ISSUES:", dashBanner] ++ issues.map (fun i => "  - " ++ i) ++ [""])
  let _ := task
  String.intercalate "\n" (lines ++ [eqBanner])

/-- `VerifierAgent._create_fallback_verification` (verifier.py lines 93-127):
the deterministic verification used whenever the text-generation call
faults. -/
def VerifierAgent.createFallbackVerification (task : String)
    (er : ExecutionResult) : VerificationResult :=
  let completed_steps :=
    er.step_results.filter fun r => r.status == StepStatus.completed
  let failed_steps :=
    er.step_results.filter fun r => r.status == StepStatus.failed
  let total_steps := er.step_results.length
  let completeness : Rat :=
    if total_steps > 0 then (completed_steps.length : Rat) / (total_steps : Rat)
    else 0
  let issues := failed_steps.map fun f =>
    "Step " ++ toString f.step_number ++ " failed: " ++ pyOptStr f.error_message
  let final_output := buildFinalOutput er.step_results
  { is_valid := decide (completeness > (1 : Rat) / 2),
    completeness_score := completeness,
    issues := issues,
    suggestions := [],
    final_output := final_output,
    formatted_response := formatResponse task final_output issues }

/-- Python's substring containment test `needle in hay` on character lists:
the needle is a prefix of some suffix of the haystack. -/
def containsSub (needle : List Char) : List Char → Bool
  | [] => needle.isPrefixOf []
  | c :: t => needle.isPrefixOf (c :: t) || containsSub needle t

/-- Python's `needle in hay` on strings. -/
def strContains (hay needle : String) : Bool :=
  containsSub needle.data hay.data

/-- Python's `str.lower()` (character-wise lowercasing; structural so that
concrete instances evaluate). -/
def pyLower (s : String) : String :=
  String.mk (s.data.map Char.toLower)

/-- Helper for `str.split()`: scan the characters, accumulating the current
word reversed. -/
def pySplitGo : List Char → List Char → List String
  | [], acc => if acc.isEmpty then [] else [String.mk acc.reverse]
  | c :: rest, acc =>
      if c.isWhitespace then
        if acc.isEmpty then pySplitGo rest []
        else String.mk acc.reverse :: pySplitGo rest []
      else pySplitGo rest (c :: acc)

/-- Python's argumentless `str.split()`: split on whitespace runs, dropping
empty pieces. -/
def pySplit (s : String) : List String :=
  pySplitGo s.data []

/-- Helper for `str.title()`: capitalize the first character of each
alphabetic run, lowercase the rest. -/
def pyTitleGo : List Char → Bool → List Char
  | [], _ => []
  | c :: rest, newWord =>
      if c.isAlpha then
        (if newWord then c.toUpper else c.toLower) :: pyTitleGo rest false
      else c :: pyTitleGo rest true

/-- Python's `str.title()`. -/
def pyTitle (s : String) : String :=
  String.mk (pyTitleGo s.data true)

/-- Python's `str.strip(chars)`: drop characters of the set from both ends. -/
def pyStrip (s : String) (chars : List Char) : String :=
  String.mk
    (((s.data.dropWhile fun c => chars.contains c).reverse.dropWhile
      fun c => chars.contains c).reverse)

/-- The repository keyword set of `PlannerAgent._create_fallback_plan`
(planner.py line 64). -/
def githubKeywords : List String :=
  ["github", "repo", "repository", "code", "project", "star"]

/-- The weather keyword set of `PlannerAgent._create_fallback_plan`
(planner.py line 65). -/
def weatherKeywords : List String :=
  ["weather", "temperature", "forecast", "climate", "rain", "sunny"]

/-- The stop-word set of `PlannerAgent._extract_search_query`
(planner.py lines 107-108). -/
def skipWords : List String :=
  ["find", "search", "get", "show", "list", "the", "a", "an", "for", "in",
   "on", "github", "weather", "and", "with", "top"]

/-- `PlannerAgent._extract_search_query` (planner.py lines 104-110); the
`context` argument is unused in the source as well. -/
def PlannerAgent.extractSearchQuery (task : String) (context : String) :
    String :=
  let words := pySplit task
  let query_words := words.filter fun w => !(skipWords.contains (pyLower w))
  let _ := context
  if query_words.isEmpty then "popular repositories"
  else String.intercalate " " (query_words.take 5)

/-- The known-city list of `PlannerAgent._extract_city`
(planner.py lines 114-118). -/
def commonCities : List String :=
  ["new york", "london", "tokyo", "paris", "berlin", "sydney", "mumbai",
   "singapore", "dubai", "san francisco", "los angeles", "chicago", "seattle",
   "boston", "toronto", "vancouver"]

/-- The word scan of `PlannerAgent._extract_city` (planner.py lines 125-131):
after a lowercased "in"/"for"/"at", strip `.,!?` from the following word and
return it when its first character is uppercase, else keep scanning; "London"
when the scan finds nothing.  `none` models the uncaught `IndexError` the
source raises when the stripped word is empty (`potential_city[0]` on an empty
string). -/
def cityFromWords : List String → Option String
  | w :: next :: rest =>
      if pyLower w == "in" || pyLower w == "for" || pyLower w == "at" then
        let city := pyStrip next ['.', ',', '!', '?']
        if city.isEmpty then none
        else if city.front.isUpper then some city
        else cityFromWords (next :: rest)
      else cityFromWords (next :: rest)
  | _ => some "London"

/-- `PlannerAgent._extract_city` (planner.py lines 112-133); `none` models the
uncaught `IndexError` described at `cityFromWords`. -/
def PlannerAgent.extractCity (task : String) : Option String :=
  let task_lower := pyLower task
  match commonCities.find? (fun city => strContains task_lower city) with
  | some city => some (pyTitle city)
  | none => cityFromWords (pySplit task)

/-- `PlannerAgent._create_fallback_plan` (planner.py lines 53-102): keyword
classification of the lowercased task, one step per matched keyword set with
consecutive step numbers, and a single default repository-search step over
the task's first 50 characters when nothing matched.  `none` models the
uncaught `IndexError` described at `cityFromWords`. -/
def PlannerAgent.createFallbackPlan (task : String) : Option ExecutionPlan :=
  let task_lower := pyLower task
  let githubSteps : List PlanStep :=
    if githubKeywords.any (fun kw => strContains task_lower kw) then
      [{ step_number := 1, description := "Search GitHub repositories",
         tool := ToolType.github,
         parameters :=
           [("query",
             ParamValue.str (PlannerAgent.extractSearchQuery task "github")),
            ("limit", ParamValue.nat 5)],
         depends_on := [] }]
    else []
  let weatherSteps : Option (List PlanStep) :=
    if weatherKeywords.any (fun kw => strContains task_lower kw) then
      (PlannerAgent.extractCity task).map fun city =>
        [{ step_number := githubSteps.length + 1,
           description := "Get weather for " ++ city,
           tool := ToolType.weather,
           parameters := [("city", ParamValue.str city)], depends_on := [] }]
    else some []
  weatherSteps.map fun ws =>
    let steps := githubSteps ++ ws
    { task_summary := task.take 200,
      steps :=
        if steps.isEmpty then
          [{ step_number := 1,
             description := "Search GitHub for relevant repositories",
             tool := ToolType.github,
             parameters :=
               [("query", ParamValue.str (task.take 50)),
                ("limit", ParamValue.nat 5)],
             depends_on := [] }]
        else steps,
      reasoning := "Fallback plan generated from keyword extraction" }

/-- The collaborators one `AgentOrchestrator` works with, as oracles: the
registry state its executor uses, the planning stage's outcome per task
(`PlannerAgent.run`, whether from the text-generation service or its
fallback), and the verification stage's outcome per task and run result
(`VerifierAgent.run`). -/
structure OrchestratorEnv where
  registry : Registry
  planner : String → ExecutionPlan
  verifier : String → ExecutionResult → VerificationResult

/-- The in-place replacement loop of `AgentOrchestrator._retry_failed_steps`
(orchestrator.py lines 125-128): replace the first entry whose `step_number`
matches, leave the list unchanged when none does. -/
def replaceByStepNumber (rs : List StepResult) (n : Nat) (new : StepResult) :
    List StepResult :=
  match rs with
  | [] => []
  | r :: rest =>
      if r.step_number == n then new :: rest
      else r :: replaceByStepNumber rest n new

/-- The retry loop of `AgentOrchestrator._retry_failed_steps`
(orchestrator.py lines 122-128): for each collected failed (step, old result)
pair, call `_execute_step` once — with no dependency information — and splice
the new result in by step number. -/
def retryLoop (registry : Registry) :
    List (PlanStep × StepResult) → List StepResult → List StepResult
  | [], rs => rs
  | (step, _) :: rest, rs =>
      retryLoop registry rest
        (replaceByStepNumber rs step.step_number (executeStep registry step))

/-- `AgentOrchestrator._retry_failed_steps` (orchestrator.py lines 101-141):
collect the (step, result) pairs whose result is FAILED (zipping the plan's
steps with the run's step results), return unchanged when none; otherwise
re-execute each once, recompute `success`/`partial_success` from the updated
step list, and re-verify. -/
def AgentOrchestrator.retryFailedSteps (env : OrchestratorEnv) (task : String)
    (plan : ExecutionPlan) (execution : ExecutionResult)
    (verification : VerificationResult) :
    ExecutionResult × VerificationResult :=
  let failed_steps := (plan.steps.zip execution.step_results).filter
    fun p => p.2.status == StepStatus.failed
  if failed_steps.isEmpty then (execution, verification)
  else
    let new_results := retryLoop env.registry failed_steps execution.step_results
    let success_count :=
      (new_results.filter fun r => r.status == StepStatus.completed).length
    let all_success := success_count == new_results.length
    let execution2 :=
      { execution with
          step_results := new_results
          success := all_success
          partial_success := decide (success_count > 0) && !all_success }
    (execution2, env.verifier task execution2)

/-- `AgentOrchestrator.run` (orchestrator.py lines 49-99): plan, execute,
verify, then — only when the run was unsuccessful and scored below 1.0 —
recover failed steps, and assemble the response with
`success = verification.is_valid and execution_result.success`. -/
def AgentOrchestrator.run (env : OrchestratorEnv) (task : String) :
    AgentResponse :=
  let plan := env.planner task
  let execution := ExecutorAgent.run env.registry plan
  let verification := env.verifier task execution
  let step4 :=
    if !execution.success && decide (verification.completeness_score < 1) then
      AgentOrchestrator.retryFailedSteps env task plan execution verification
    else (execution, verification)
  { task := task, plan := plan, execution := step4.1, verification := step4.2,
    success := step4.2.is_valid && step4.1.success }

/-- The attempt loop of `AgentOrchestrator.run_with_retry` (orchestrator.py
lines 167-184), over an oracle giving the `run` response of each attempt.
`remaining` is the loop-counter difference `max_attempts - attempt`, carried
structurally so the loop is executable.  A fully successful attempt is
returned at once; otherwise the best response is kept, replaced only by a
strictly higher completeness score. -/
def runWithRetryLoop (attempts : Nat → AgentResponse) :
    Nat → Nat → Option AgentResponse → Option AgentResponse
  | 0, _, best => best
  | remaining + 1, attempt, best =>
      let response := attempts attempt
      if response.success then some response
      else
        let best2 :=
          match best with
          | none => some response
          | some b =>
              if response.verification.completeness_score >
                  b.verification.completeness_score then some response
              else some b
        runWithRetryLoop attempts remaining (attempt + 1) best2

/-- `AgentOrchestrator.run_with_retry` (orchestrator.py lines 152-184);
`attempts k` is the response the `k`-th invocation of `run` produces.  The
result is `none` exactly when `max_attempts = 0` (the Python function returns
its never-assigned `best_response`, `None`, in that case). -/
def AgentOrchestrator.runWithRetry (attempts : Nat → AgentResponse)
    (max_attempts : Nat) : Option AgentResponse :=
  runWithRetryLoop attempts max_attempts 0 none

/-- Every result built by the executor's retry loop carries the step's
number. -/
theorem executeStepLoop_step_number (tool : Tool) (params : Params) (n : Nat) :
    ∀ fuel rc le tr,
      (executeStepLoop tool params n fuel rc le tr).1.step_number = n := by
  intro fuel
  induction fuel with
  | zero => intro rc le tr; rfl
  | succ m ih =>
      intro rc le tr
      simp only [executeStepLoop]
      cases tool.behavior params rc with
      | ok r =>
          by_cases h : r.success = true
          · simp [h]
          · simp only [Bool.not_eq_true] at h
            simp [h, ih]
      | exn m => simp [ih]

/-- Every result built by the executor's retry loop is COMPLETED or FAILED. -/
theorem executeStepLoop_status (tool : Tool) (params : Params) (n : Nat) :
    ∀ fuel rc le tr,
      (executeStepLoop tool params n fuel rc le tr).1.status =
          StepStatus.completed ∨
        (executeStepLoop tool params n fuel rc le tr).1.status =
          StepStatus.failed := by
  intro fuel
  induction fuel with
  | zero => intro rc le tr; right; rfl
  | succ m ih =>
      intro rc le tr
      simp only [executeStepLoop]
      cases tool.behavior params rc with
      | ok r =>
          by_cases h : r.success = true
          · simp [h]
          · simp only [Bool.not_eq_true] at h
            simp only [h]
            exact ih _ _ _
      | exn m => exact ih _ _ _

/-- `_execute_step` keeps the step's number on its result. -/
theorem executeStep_step_number (registry : Registry) (step : PlanStep) :
    (executeStep registry step).step_number = step.step_number := by
  unfold executeStep executeStepT
  cases ToolRegistry.get registry step.tool with
  | none => rfl
  | some tool => exact executeStepLoop_step_number _ _ _ _ _ _ _

/-- `_execute_step` returns a COMPLETED or FAILED result. -/
theorem executeStepT_status (registry : Registry) (step : PlanStep) :
    (executeStepT registry step).1.status = StepStatus.completed ∨
      (executeStepT registry step).1.status = StepStatus.failed := by
  unfold executeStepT
  cases ToolRegistry.get registry step.tool with
  | none => right; rfl
  | some tool => exact executeStepLoop_status _ _ _ _ _ _ _

/-- The plan-runner loop yields one result per step. -/
theorem runPlanAux_length (registry : Registry) :
    ∀ steps completed,
      (runPlanAux registry steps completed).length = steps.length := by
  intro steps
  induction steps with
  | nil => intro completed; rfl
  | cons s rest ih =>
      intro completed
      simp only [runPlanAux, List.length_cons]
      rw [ih]

/-- Every result the plan-runner loop records is COMPLETED or FAILED. -/
theorem runPlanAux_status (registry : Registry) :
    ∀ steps completed p, p ∈ runPlanAux registry steps completed →
      p.1.status = StepStatus.completed ∨ p.1.status = StepStatus.failed := by
  intro steps
  induction steps with
  | nil => intro completed p hp; simp [runPlanAux] at hp
  | cons s rest ih =>
      intro completed p hp
      simp only [runPlanAux, List.mem_cons] at hp
      rcases hp with hp | hp
      · subst hp
        by_cases h : dependenciesMet s.depends_on completed = true
        · simpa [h] using executeStepT_status registry s
        · simp only [Bool.not_eq_true] at h
          simp [h]
      · exact ih _ _ hp

/-- Splitting a resolved result list by status: COMPLETED and FAILED counts
add up to the length. -/
theorem count_status_split (l : List StepResult)
    (h : ∀ r ∈ l, r.status = StepStatus.completed ∨
      r.status = StepStatus.failed) :
    l.countP (fun r => r.status == StepStatus.completed) +
      l.countP (fun r => r.status == StepStatus.failed) = l.length := by
  induction l with
  | nil => rfl
  | cons r rest ih =>
      have hr := h r (List.mem_cons_self r rest)
      have ihr := ih fun x hx => h x (List.mem_cons_of_mem r hx)
      rcases hr with hr | hr <;> simp [List.countP_cons, hr] <;> omega

/-- The run's `success` flag, expressed through the COMPLETED count. -/
theorem run_success_eq (registry : Registry) (plan : ExecutionPlan) :
    (ExecutorAgent.run registry plan).success =
      ((ExecutorAgent.run registry plan).step_results.countP
        (fun r => r.status == StepStatus.completed) == plan.steps.length) := by
  simp only [ExecutorAgent.run, List.countP_eq_length_filter]
  rw [List.length_map, runPlanAux_length]

/-- The run's `partial_success` flag, expressed through the COMPLETED count
and the `success` flag. -/
theorem run_partial_eq (registry : Registry) (plan : ExecutionPlan) :
    (ExecutorAgent.run registry plan).partial_success =
      (decide (0 < (ExecutorAgent.run registry plan).step_results.countP
          (fun r => r.status == StepStatus.completed)) &&
        !(ExecutorAgent.run registry plan).success) := by
  simp only [ExecutorAgent.run, List.countP_eq_length_filter]

/-- C6: after the Plan Runner executes any plan, every step result is
COMPLETED or FAILED (none remains PENDING, so the two counts add up to the
number of steps), `success` holds exactly when every step completed, and
`partial_success` exactly when some but not all did. -/
theorem C6_run_resolves_every_step (registry : Registry)
    (plan : ExecutionPlan) :
    ((ExecutorAgent.run registry plan).step_results.all fun r =>
        r.status == StepStatus.completed || r.status == StepStatus.failed) =
        true ∧
    (ExecutorAgent.run registry plan).step_results.countP
        (fun r => r.status == StepStatus.completed) +
      (ExecutorAgent.run registry plan).step_results.countP
        (fun r => r.status == StepStatus.failed) = plan.steps.length ∧
    ((ExecutorAgent.run registry plan).success = true ↔
      (ExecutorAgent.run registry plan).step_results.countP
        (fun r => r.status == StepStatus.completed) = plan.steps.length) ∧
    ((ExecutorAgent.run registry plan).partial_success = true ↔
      0 < (ExecutorAgent.run registry plan).step_results.countP
        (fun r => r.status == StepStatus.completed) ∧
      (ExecutorAgent.run registry plan).success = false) := by
  have hstatus : ∀ r ∈ (ExecutorAgent.run registry plan).step_results,
      r.status = StepStatus.completed ∨ r.status = StepStatus.failed := by
    intro r hr
    simp only [ExecutorAgent.run, List.mem_map] at hr
    obtain ⟨p, hp, hpr⟩ := hr
    subst hpr
    exact runPlanAux_status registry plan.steps (fun _ => none) p hp
  refine ⟨?_, ?_, ?_, ?_⟩
  · rw [List.all_eq_true]
    intro r hr
    rcases hstatus r hr with h | h <;> simp [h]
  · rw [count_status_split _ hstatus]
    simp [ExecutorAgent.run, runPlanAux_length]
  · rw [run_success_eq, beq_iff_eq]
  · rw [run_partial_eq, Bool.and_eq_true, decide_eq_true_iff,
      Bool.not_eq_true']

/-- C7: a step one of whose dependencies is missing from the
already-processed results, or was recorded with a status other than
COMPLETED, is marked FAILED immediately with error "Dependencies not met":
whatever the registry holds, its tool is never invoked and no backoff wait
happens (empty trace), its `tool_result` stays absent and its `retry_count`
stays 0, and the loop continues with that failure recorded under the step's
number. -/
theorem C7_dependency_unmet_fails_immediately (registry : Registry)
    (completed : Nat → Option StepResult) (step : PlanStep)
    (rest : List PlanStep) (dep : Nat) (hmem : dep ∈ step.depends_on)
    (hbad : ∀ r, completed dep = some r → r.status ≠ StepStatus.completed) :
    runPlanAux registry (step :: rest) completed =
      ({ step_number := step.step_number, status := StepStatus.failed,
         tool_result := none, retry_count := 0,
         error_message := some "Dependencies not met" }, {}) ::
      runPlanAux registry rest
        (fun n => if n = step.step_number then
            some { step_number := step.step_number, status := StepStatus.failed,
                   tool_result := none, retry_count := 0,
                   error_message := some "Dependencies not met" }
          else completed n) := by
  have hdep : dependenciesMet step.depends_on completed = false := by
    rw [Bool.eq_false_iff]
    intro habs
    have := List.all_eq_true.mp habs dep hmem
    cases hc : completed dep with
    | none => rw [hc] at this; simp at this
    | some r =>
        rw [hc] at this
        simp only [beq_iff_eq] at this
        exact hbad r hc this
  simp [runPlanAux, hdep]

/-- Witness for C7 at a concrete input: a single step depending on the
never-recorded step number 1 is failed immediately with "Dependencies not
met" and an empty execution trace, for a registry that does hold its tool. -/
theorem C7_witness :
    runPlanAux
      (fun t => if t = ToolType.github then
          some (mkGitHubTool fun _ _ =>
            AttemptOutcome.ok { tool := ToolType.github, success := true })
        else none)
      [{ step_number := 2, description := "d", tool := ToolType.github,
         parameters := [], depends_on := [1] }]
      (fun _ => none) =
      [({ step_number := 2, status := StepStatus.failed, tool_result := none,
          retry_count := 0, error_message := some "Dependencies not met" },
        {})] :=
  C7_dependency_unmet_fails_immediately _ _ _ [] 1 (by decide)
    (fun r h => by simp at h)

/-- C8: for a two-step plan whose second step depends on the first (and the
first on nothing), where the first step names a tool that is not in the
registry, the run fails step 1 with "Tool not found: {tool}", fails step 2
with "Dependencies not met", reports neither `success` nor
`partial_success`, and invokes no tool and performs no retry wait (both
execution traces are empty). -/
theorem C8_tool_not_found_cascade (registry : Registry) (s1 s2 : PlanStep)
    (plan : ExecutionPlan) (hsteps : plan.steps = [s1, s2])
    (hdep1 : s1.depends_on = [])
    (h1 : ToolRegistry.get registry s1.tool = none)
    (hdep2 : s2.depends_on = [s1.step_number]) :
    ExecutorAgent.run registry plan =
      { plan := plan,
        step_results :=
          [{ step_number := s1.step_number, status := StepStatus.failed,
             tool_result := none, retry_count := 0,
             error_message := some ("Tool not found: " ++ s1.tool.value) },
           { step_number := s2.step_number, status := StepStatus.failed,
             tool_result := none, retry_count := 0,
             error_message := some "Dependencies not met" }],
        success := false, partial_success := false } ∧
    (runPlanAux registry plan.steps (fun _ => none)).map (fun p => p.2) =
      [{}, {}] := by
  have hbe : (StepStatus.failed == StepStatus.completed) = false := rfl
  have haux : runPlanAux registry plan.steps (fun _ => none) =
      [({ step_number := s1.step_number, status := StepStatus.failed,
          tool_result := none, retry_count := 0,
          error_message := some ("Tool not found: " ++ s1.tool.value) }, {}),
       ({ step_number := s2.step_number, status := StepStatus.failed,
          tool_result := none, retry_count := 0,
          error_message := some "Dependencies not met" }, {})] := by
    rw [hsteps]
    simp only [runPlanAux, dependenciesMet, hdep1, hdep2, List.all_nil,
      if_true, executeStepT, h1, List.all_cons, List.all_nil, if_pos rfl,
      hbe, Bool.and_true, Bool.false_eq_true, if_false]
  refine ⟨?_, by simp [haux]⟩
  simp [ExecutorAgent.run, haux, List.filter, hbe]

/-- Witness for C8 at a concrete input: a concrete two-step plan whose first
step names the (unregistered, in this registry state) GitHub tool and whose
second step depends on the first. -/
theorem C8_witness :
    ExecutorAgent.run (fun _ => none)
      { task_summary := "t",
        steps :=
          [{ step_number := 1, description := "a", tool := ToolType.github,
             parameters := [], depends_on := [] },
           { step_number := 2, description := "b", tool := ToolType.weather,
             parameters := [], depends_on := [1] }],
        reasoning := "r" } =
      { plan :=
          { task_summary := "t",
            steps :=
              [{ step_number := 1, description := "a", tool := ToolType.github,
                 parameters := [], depends_on := [] },
               { step_number := 2, description := "b",
                 tool := ToolType.weather, parameters := [],
                 depends_on := [1] }],
            reasoning := "r" },
        step_results :=
          [{ step_number := 1, status := StepStatus.failed,
             tool_result := none, retry_count := 0,
             error_message := some ("Tool not found: " ++
               ToolType.github.value) },
           { step_number := 2, status := StepStatus.failed,
             tool_result := none, retry_count := 0,
             error_message := some "Dependencies not met" }],
        success := false, partial_success := false } :=
  (C8_tool_not_found_cascade (fun _ => none)
    { step_number := 1, description := "a", tool := ToolType.github,
      parameters := [], depends_on := [] }
    { step_number := 2, description := "b", tool := ToolType.weather,
      parameters := [], depends_on := [1] }
    _ rfl rfl rfl rfl).1

/-- C2: when a step's tool is registered but every invocation returns a
failing outcome, `_execute_step` performs exactly 3 invocation attempts
(`max_retries = 3`), waits 1 then 2 backoff units between consecutive
attempts, and returns a FAILED result whose `retry_count` is 3 and whose
error is the last recorded tool error, or "Max retries exceeded" when the
last failing outcome carried no error text (a `None` error, or the falsy
empty string). -/
theorem C2_retry_exhaustion (registry : Registry) (step : PlanStep)
    (tool : Tool) (results : Nat → ToolResult)
    (hreg : ToolRegistry.get registry step.tool = some tool)
    (hfail : ∀ k, k < 3 →
      tool.behavior step.parameters k = AttemptOutcome.ok (results k) ∧
      (results k).success = false) :
    executeStepT registry step =
      ({ step_number := step.step_number, status := StepStatus.failed,
         tool_result := none, retry_count := 3,
         error_message :=
           some (pyOrDefault ((results 2).error) "Max retries exceeded") },
       { invocations := 3, sleeps := [1 * 1, 1 * 2] }) := by
  have h0 := hfail 0 (by omega)
  have h1 := hfail 1 (by omega)
  have h2 := hfail 2 (by omega)
  simp only [executeStepT, hreg, ExecutorAgent.max_retries, executeStepLoop,
    h0.1, h0.2, h1.1, h1.2, h2.1, h2.2, Bool.false_eq_true, if_false,
    List.nil_append, List.append_assoc]
  norm_num

/-- Witness for C2 at concrete inputs: a registered GitHub tool that fails
every invocation with a rate-limit error yields that error; one that fails
every invocation with an empty error string (as `str(Exception())` does)
yields "Max retries exceeded". -/
theorem C2_witness :
    executeStepT
      (fun t => if t = ToolType.github then
          some (mkGitHubTool fun _ _ => AttemptOutcome.ok
            { tool := ToolType.github, success := false,
              error := some "GitHub API error: 403 (Rate limit exceeded)" })
        else none)
      { step_number := 5, description := "search", tool := ToolType.github,
        parameters := [("query", ParamValue.str "python")],
        depends_on := [] } =
      ({ step_number := 5, status := StepStatus.failed, tool_result := none,
         retry_count := 3,
         error_message := some "GitHub API error: 403 (Rate limit exceeded)" },
       { invocations := 3, sleeps := [1, 2] }) ∧
    executeStepT
      (fun t => if t = ToolType.github then
          some (mkGitHubTool fun _ _ => AttemptOutcome.ok
            { tool := ToolType.github, success := false, error := some "" })
        else none)
      { step_number := 5, description := "search", tool := ToolType.github,
        parameters := [("query", ParamValue.str "python")],
        depends_on := [] } =
      ({ step_number := 5, status := StepStatus.failed, tool_result := none,
         retry_count := 3,
         error_message := some "Max retries exceeded" },
       { invocations := 3, sleeps := [1, 2] }) :=
  ⟨C2_retry_exhaustion _ _
    (mkGitHubTool fun _ _ => AttemptOutcome.ok
      { tool := ToolType.github, success := false,
        error := some "GitHub API error: 403 (Rate limit exceeded)" })
    (fun _ => { tool := ToolType.github, success := false,
                error := some "GitHub API error: 403 (Rate limit exceeded)" })
    rfl (fun k _ => ⟨rfl, rfl⟩),
   C2_retry_exhaustion _ _
    (mkGitHubTool fun _ _ => AttemptOutcome.ok
      { tool := ToolType.github, success := false, error := some "" })
    (fun _ => { tool := ToolType.github, success := false, error := some "" })
    rfl (fun k _ => ⟨rfl, rfl⟩)⟩

/-- The run result used to witness C5: four step results, three COMPLETED and
one FAILED. -/
def C5wRunResult : ExecutionResult :=
  { plan := { task_summary := "t", steps := [], reasoning := "r" },
    step_results :=
      [{ step_number := 1, status := StepStatus.completed },
       { step_number := 2, status := StepStatus.completed },
       { step_number := 3, status := StepStatus.completed },
       { step_number := 4, status := StepStatus.failed,
         error_message := some "boom" }],
    success := false, partial_success := true }

/-- C5: the fallback verification is a pure function of the run result:
its score is `count(COMPLETED) / total` (0 for an empty run), `is_valid`
holds exactly when the score exceeds 1/2, `issues` lists exactly one
"Step {n} failed: {error}" entry per FAILED step in step order,
`suggestions` is empty, re-verifying the unmodified run result yields the
identical verification, and a 4-step run with 3 completed steps scores 3/4
and is valid. -/
theorem C5_fallback_verification_formula (task : String)
    (er : ExecutionResult) :
    (VerifierAgent.createFallbackVerification task er).completeness_score =
      (if er.step_results.length = 0 then 0 else
        ((er.step_results.countP fun r =>
          r.status == StepStatus.completed) : Rat) /
          (er.step_results.length : Rat)) ∧
    ((VerifierAgent.createFallbackVerification task er).is_valid = true ↔
      (VerifierAgent.createFallbackVerification task er).completeness_score >
        (1 : Rat) / 2) ∧
    (VerifierAgent.createFallbackVerification task er).issues =
      (er.step_results.filter fun r => r.status == StepStatus.failed).map
        (fun f => "Step " ++ toString f.step_number ++ " failed: " ++
          pyOptStr f.error_message) ∧
    (VerifierAgent.createFallbackVerification task er).suggestions = [] ∧
    VerifierAgent.createFallbackVerification task er =
      VerifierAgent.createFallbackVerification task er ∧
    (er.step_results.length = 4 →
      (er.step_results.countP fun r => r.status == StepStatus.completed) = 3 →
      (VerifierAgent.createFallbackVerification task er).completeness_score =
          3 / 4 ∧
        (VerifierAgent.createFallbackVerification task er).is_valid = true) := by
  have hscore :
      (VerifierAgent.createFallbackVerification task er).completeness_score =
        (if er.step_results.length = 0 then 0 else
          ((er.step_results.countP fun r =>
            r.status == StepStatus.completed) : Rat) /
            (er.step_results.length : Rat)) := by
    simp only [VerifierAgent.createFallbackVerification,
      List.countP_eq_length_filter]
    rcases Nat.eq_zero_or_pos er.step_results.length with h | h
    · simp [h]
    · simp [h, Nat.pos_iff_ne_zero.mp h]
  have hvalid :
      (VerifierAgent.createFallbackVerification task er).is_valid =
        decide ((VerifierAgent.createFallbackVerification task er
          ).completeness_score > (1 : Rat) / 2) := by
    simp only [VerifierAgent.createFallbackVerification]
  refine ⟨hscore, ?_, rfl, rfl, rfl, ?_⟩
  · rw [hvalid, decide_eq_true_iff]
  · intro hlen hcnt
    have h34 : (VerifierAgent.createFallbackVerification task er
        ).completeness_score = 3 / 4 := by
      rw [hscore, hlen, hcnt]
      norm_num
    refine ⟨h34, ?_⟩
    rw [hvalid, h34, decide_eq_true_iff]
    norm_num

/-- Witness for C5 at a concrete input: a 4-step run result with 3 COMPLETED
steps scores 3/4 and is valid. -/
theorem C5_witness :
    (VerifierAgent.createFallbackVerification "t" C5wRunResult
      ).completeness_score = 3 / 4 ∧
    (VerifierAgent.createFallbackVerification "t" C5wRunResult
      ).is_valid = true :=
  (C5_fallback_verification_formula "t" C5wRunResult).2.2.2.2.2 rfl (by decide)

/-- C9: every plan the fallback planner produces has only steps with empty
`depends_on`; and for a task whose lowercased text contains no repository
keyword and no weather keyword, the fallback plan is exactly one
repository-search step whose query is the task's first 50 characters. -/
theorem C9_fallback_plan_shape (task : String) :
    (∀ plan, PlannerAgent.createFallbackPlan task = some plan →
      ∀ s ∈ plan.steps, s.depends_on = []) ∧
    ((githubKeywords.all fun kw => !(strContains (pyLower task) kw)) = true →
      (weatherKeywords.all fun kw => !(strContains (pyLower task) kw)) = true →
      PlannerAgent.createFallbackPlan task =
        some { task_summary := task.take 200,
               steps :=
                 [{ step_number := 1,
                    description := "Search GitHub for relevant repositories",
                    tool := ToolType.github,
                    parameters :=
                      [("query", ParamValue.str (task.take 50)),
                       ("limit", ParamValue.nat 5)],
                    depends_on := [] }],
               reasoning :=
                 "Fallback plan generated from keyword extraction" }) := by
  constructor
  · intro plan hplan s hs
    by_cases hG : (githubKeywords.any fun kw => strContains (pyLower task) kw) =
        true
    · by_cases hW :
          (weatherKeywords.any fun kw => strContains (pyLower task) kw) = true
      · simp only [PlannerAgent.createFallbackPlan, hG, hW, if_true] at hplan
        cases hc : PlannerAgent.extractCity task with
        | none => rw [hc] at hplan; simp at hplan
        | some city =>
            rw [hc] at hplan
            simp at hplan
            rw [← hplan] at hs
            simp at hs
            rcases hs with hs | hs <;> rw [hs]
      · rw [Bool.not_eq_true] at hW
        simp only [PlannerAgent.createFallbackPlan, hG, hW, if_true,
          Bool.false_eq_true, if_false] at hplan
        simp at hplan
        rw [← hplan] at hs
        simp at hs
        rw [hs]
    · rw [Bool.not_eq_true] at hG
      by_cases hW :
          (weatherKeywords.any fun kw => strContains (pyLower task) kw) = true
      · simp only [PlannerAgent.createFallbackPlan, hG, hW, if_true,
          Bool.false_eq_true, if_false] at hplan
        cases hc : PlannerAgent.extractCity task with
        | none => rw [hc] at hplan; simp at hplan
        | some city =>
            rw [hc] at hplan
            simp at hplan
            rw [← hplan] at hs
            simp at hs
            rw [hs]
      · rw [Bool.not_eq_true] at hW
        simp only [PlannerAgent.createFallbackPlan, hG, hW,
          Bool.false_eq_true, if_false] at hplan
        simp at hplan
        rw [← hplan] at hs
        simp at hs
        rw [hs]
  · intro hg hw
    have hgf : ∀ kw ∈ githubKeywords, strContains (pyLower task) kw = false := by
      intro kw hk
      simpa using List.all_eq_true.mp hg kw hk
    have hwf : ∀ kw ∈ weatherKeywords,
        strContains (pyLower task) kw = false := by
      intro kw hk
      simpa using List.all_eq_true.mp hw kw hk
    have hg2 : (githubKeywords.any fun kw => strContains (pyLower task) kw) =
        false := by
      rw [Bool.eq_false_iff]
      intro habs
      obtain ⟨kw, hk, hp⟩ := List.any_eq_true.mp habs
      rw [hgf kw hk] at hp
      cases hp
    have hw2 : (weatherKeywords.any fun kw => strContains (pyLower task) kw) =
        false := by
      rw [Bool.eq_false_iff]
      intro habs
      obtain ⟨kw, hk, hp⟩ := List.any_eq_true.mp habs
      rw [hwf kw hk] at hp
      cases hp
    simp [PlannerAgent.createFallbackPlan, hg2, hw2]

/-- Witness for C9 at a concrete input: the task "hello!" matches neither
keyword set, so the fallback plan is the single default repository-search
step, and its steps all have empty dependencies. -/
theorem C9_witness :
    PlannerAgent.createFallbackPlan "hello!" =
      some { task_summary := String.take "hello!" 200,
             steps :=
               [{ step_number := 1,
                  description := "Search GitHub for relevant repositories",
                  tool := ToolType.github,
                  parameters :=
                    [("query", ParamValue.str (String.take "hello!" 50)),
                     ("limit", ParamValue.nat 5)],
                  depends_on := [] }],
             reasoning := "Fallback plan generated from keyword extraction" } ∧
    (∀ plan, PlannerAgent.createFallbackPlan "hello!" = some plan →
      ∀ s ∈ plan.steps, s.depends_on = []) :=
  ⟨(C9_fallback_plan_shape "hello!").2 (by decide) (by decide),
   (C9_fallback_plan_shape "hello!").1⟩

/-- C10: the registry produced by constructing an `ExecutorAgent` (and hence
any orchestrator) does not depend on the prior state of the process-global
class-level mapping — construction first clears it — and holds exactly the
GitHub and Weather tools: lookup succeeds precisely for the GITHUB and
WEATHER identifiers (which exhaust the identifier type, so no plan step can
find its tool missing and the "Tool not found" failure could only arise for
a step referencing some identifier outside this set). -/
theorem C10_registry_after_construction (gb wb : Params → Nat → AttemptOutcome)
    (r r2 : Registry) :
    ExecutorAgent.registerTools gb wb r = ExecutorAgent.registerTools gb wb r2 ∧
    ToolRegistry.get (ExecutorAgent.registerTools gb wb r) ToolType.github =
      some (mkGitHubTool gb) ∧
    ToolRegistry.get (ExecutorAgent.registerTools gb wb r) ToolType.weather =
      some (mkWeatherTool wb) ∧
    (∀ t, (ToolRegistry.get (ExecutorAgent.registerTools gb wb r) t).isSome =
        true ↔ (t = ToolType.github ∨ t = ToolType.weather)) ∧
    (∀ step : PlanStep, ∃ tool,
      ToolRegistry.get (ExecutorAgent.registerTools gb wb r) step.tool =
        some tool) := by
  refine ⟨?_, rfl, rfl, ?_, ?_⟩
  · funext t
    cases t <;> rfl
  · intro t
    cases t <;> simp [ToolRegistry.get, ExecutorAgent.registerTools,
      ToolRegistry.register, ToolRegistry.clear, mkGitHubTool, mkWeatherTool]
  · intro step
    cases h : step.tool
    · exact ⟨mkGitHubTool gb, rfl⟩
    · exact ⟨mkWeatherTool wb, rfl⟩

/-- The outer retry loop short-circuits: if every attempt before `k` fails
and attempt `k` (still within the budget) succeeds, the loop returns attempt
`k`'s response, whatever best response it is carrying. -/
theorem runWithRetryLoop_first_success (attempts : Nat → AgentResponse) :
    ∀ rem attempt best k, attempt ≤ k → k < attempt + rem →
      (∀ j, attempt ≤ j → j < k → (attempts j).success = false) →
      (attempts k).success = true →
      runWithRetryLoop attempts rem attempt best = some (attempts k) := by
  intro rem
  induction rem with
  | zero => intro attempt best k h1 h2 _ _; omega
  | succ m ih =>
      intro attempt best k h1 h2 hfail hsucc
      simp only [runWithRetryLoop]
      by_cases hA : (attempts attempt).success = true
      · have hak : attempt = k := by
          by_contra hne
          rw [hfail attempt le_rfl (lt_of_le_of_ne h1 hne)] at hA
          cases hA
        rw [hak, hsucc]
        simp
      · rw [Bool.not_eq_true] at hA
        have hak : attempt ≠ k := by
          intro h
          rw [h, hsucc] at hA
          cases hA
        simp only [hA, Bool.false_eq_true, if_false]
        exact ih (attempt + 1) _ k (by omega) (by omega)
          (fun j hj1 hj2 => hfail j (by omega) hj2) hsucc

/-- The outer retry loop with a carried best response, on a window of attempts
that all fail: it returns either that carried response or one of the window's
responses, never with a completeness score below the carried response's, and
at least as high as every response in the window. -/
theorem runWithRetryLoop_all_fail (attempts : Nat → AgentResponse) :
    ∀ rem attempt b,
      (∀ j, attempt ≤ j → j < attempt + rem → (attempts j).success = false) →
      ∃ r, runWithRetryLoop attempts rem attempt (some b) = some r ∧
        (r = b ∨ ∃ j, attempt ≤ j ∧ j < attempt + rem ∧ r = attempts j) ∧
        b.verification.completeness_score ≤
          r.verification.completeness_score ∧
        (∀ j, attempt ≤ j → j < attempt + rem →
          (attempts j).verification.completeness_score ≤
            r.verification.completeness_score) := by
  intro rem
  induction rem with
  | zero =>
      intro attempt b _
      exact ⟨b, rfl, Or.inl rfl, le_refl _, fun j h1 h2 => by omega⟩
  | succ m ih =>
      intro attempt b hfail
      have hA := hfail attempt le_rfl (by omega)
      simp only [runWithRetryLoop, hA, Bool.false_eq_true, if_false]
      by_cases hcmp : (attempts attempt).verification.completeness_score >
          b.verification.completeness_score
      · rw [if_pos hcmp]
        obtain ⟨r, hr, hsrc, hge, hall⟩ := ih (attempt + 1) (attempts attempt)
          (fun j h1 h2 => hfail j (by omega) (by omega))
        refine ⟨r, hr, ?_, le_trans (le_of_lt hcmp) hge, ?_⟩
        · rcases hsrc with h | ⟨j, hj1, hj2, hj3⟩
          · exact Or.inr ⟨attempt, le_rfl, by omega, h⟩
          · exact Or.inr ⟨j, by omega, by omega, hj3⟩
        · intro j h1 h2
          rcases eq_or_lt_of_le h1 with h | h
          · rw [← h]
            exact hge
          · exact hall j (by omega) (by omega)
      · rw [if_neg hcmp]
        obtain ⟨r, hr, hsrc, hge, hall⟩ := ih (attempt + 1) b
          (fun j h1 h2 => hfail j (by omega) (by omega))
        refine ⟨r, hr, ?_, hge, ?_⟩
        · rcases hsrc with h | ⟨j, hj1, hj2, hj3⟩
          · exact Or.inl h
          · exact Or.inr ⟨j, by omega, by omega, hj3⟩
        · intro j h1 h2
          rcases eq_or_lt_of_le h1 with h | h
          · rw [← h]
            exact le_trans (not_lt.mp hcmp) hge
          · exact hall j (by omega) (by omega)

/-- C3: `run_with_retry` returns the first attempt whose response is fully
successful as soon as it occurs; and when every attempt within the budget
fails, it returns one of the attempts, whose completeness score is the
highest among all attempts made. -/
theorem C3_run_with_retry_selection (attempts : Nat → AgentResponse)
    (max_attempts : Nat) :
    (∀ k, k < max_attempts → (∀ j, j < k → (attempts j).success = false) →
      (attempts k).success = true →
      AgentOrchestrator.runWithRetry attempts max_attempts =
        some (attempts k)) ∧
    (0 < max_attempts →
      (∀ j, j < max_attempts → (attempts j).success = false) →
      ∃ k, k < max_attempts ∧
        AgentOrchestrator.runWithRetry attempts max_attempts =
          some (attempts k) ∧
        ∀ i, i < max_attempts →
          (attempts i).verification.completeness_score ≤
            (attempts k).verification.completeness_score) := by
  constructor
  · intro k hk hprev hsucc
    exact runWithRetryLoop_first_success attempts max_attempts 0 none k
      (Nat.zero_le k) (by omega) (fun j _ hj => hprev j hj) hsucc
  · intro hpos hfail
    obtain ⟨m, rfl⟩ : ∃ m, max_attempts = m + 1 :=
      ⟨max_attempts - 1, by omega⟩
    unfold AgentOrchestrator.runWithRetry
    have h0 := hfail 0 (by omega)
    simp only [runWithRetryLoop, h0, Bool.false_eq_true, if_false]
    obtain ⟨r, hr, hsrc, hge, hall⟩ := runWithRetryLoop_all_fail attempts m 1
      (attempts 0) (fun j h1 h2 => hfail j (by omega))
    have hex : ∃ k, k < m + 1 ∧ r = attempts k := by
      rcases hsrc with h | ⟨j, hj1, hj2, hj3⟩
      · exact ⟨0, by omega, h⟩
      · exact ⟨j, by omega, hj3⟩
    obtain ⟨k, hk, hkr⟩ := hex
    refine ⟨k, hk, by rw [hr, hkr], ?_⟩
    intro i hi
    rw [← hkr]
    rcases Nat.eq_zero_or_pos i with h | h
    · subst h
      exact hge
    · exact hall i (by omega) (by omega)

/-- A minimal pipeline response used to witness C3, carrying a given success
flag and completeness score. -/
def C3wResp (b : Bool) (q : Rat) : AgentResponse :=
  { task := "t",
    plan := { task_summary := "t", steps := [], reasoning := "r" },
    execution :=
      { plan := { task_summary := "t", steps := [], reasoning := "r" },
        step_results := [], success := b, partial_success := false },
    verification :=
      { is_valid := b, completeness_score := q, issues := [],
        suggestions := [], final_output := { summary := "", data := [] },
        formatted_response := "" },
    success := b }

/-- Witness for C3 at concrete inputs: with an immediately successful first
attempt the loop returns it; with two failing attempts scoring 1/4 then 3/4
it returns an attempt carrying the highest score seen. -/
theorem C3_witness :
    AgentOrchestrator.runWithRetry (fun _ => C3wResp true 1) 2 =
      some (C3wResp true 1) ∧
    ∃ k, k < 2 ∧
      AgentOrchestrator.runWithRetry
        (fun j => if j = 0 then C3wResp false (1 / 4)
          else C3wResp false (3 / 4)) 2 =
        some ((fun j => if j = 0 then C3wResp false (1 / 4)
          else C3wResp false (3 / 4)) k) ∧
      ∀ i, i < 2 →
        ((fun j => if j = 0 then C3wResp false (1 / 4)
          else C3wResp false (3 / 4)) i).verification.completeness_score ≤
        ((fun j => if j = 0 then C3wResp false (1 / 4)
          else C3wResp false (3 / 4)) k).verification.completeness_score :=
  ⟨(C3_run_with_retry_selection (fun _ => C3wResp true 1) 2).1 0 (by omega)
      (fun j hj => absurd hj (Nat.not_lt_zero j)) rfl,
   (C3_run_with_retry_selection _ 2).2 (by omega)
      (fun j hj => by rcases j with _ | j <;> rfl)⟩

/-- A member of the right list of an equal-length zip is paired with some
member of the left list. -/
theorem mem_zip_right {α β : Type} :
    ∀ (l1 : List α) (l2 : List β) (b : β), l1.length = l2.length → b ∈ l2 →
      ∃ a, (a, b) ∈ l1.zip l2 := by
  intro l1
  induction l1 with
  | nil =>
      intro l2 b hlen hb
      cases l2 with
      | nil => cases hb
      | cons x xs => cases hlen
  | cons a as ih =>
      intro l2 b hlen hb
      cases l2 with
      | nil => cases hb
      | cons x xs =>
          rcases List.mem_cons.mp hb with hb | hb
          · exact ⟨a, by rw [hb]; exact List.mem_cons_self _ _⟩
          · obtain ⟨a2, ha2⟩ := ih xs b (by simpa using hlen) hb
            exact ⟨a2, List.mem_cons_of_mem _ ha2⟩

/-- An unsuccessful plan run always leaves at least one FAILED (step, result)
pair for the recovery phase to collect. -/
theorem run_failed_steps_nonempty (registry : Registry) (plan : ExecutionPlan)
    (h : (ExecutorAgent.run registry plan).success = false) :
    ((plan.steps.zip (ExecutorAgent.run registry plan).step_results).filter
      (fun p => p.2.status == StepStatus.failed)).isEmpty = false := by
  have hlen : (ExecutorAgent.run registry plan).step_results.length =
      plan.steps.length := by
    simp [ExecutorAgent.run, runPlanAux_length]
  have hcnt : (ExecutorAgent.run registry plan).step_results.countP
      (fun r => r.status == StepStatus.completed) ≠ plan.steps.length := by
    intro habs
    have := (C6_run_resolves_every_step registry plan).2.2.1.mpr habs
    rw [h] at this
    cases this
  have hex : ∃ r ∈ (ExecutorAgent.run registry plan).step_results,
      ¬((fun r => r.status == StepStatus.completed) r = true) := by
    by_contra habs
    push_neg at habs
    exact hcnt (by rw [List.countP_eq_length.mpr habs, hlen])
  obtain ⟨r, hr, hnc⟩ := hex
  have hfailed : r.status = StepStatus.failed := by
    have hst : ∀ x ∈ (ExecutorAgent.run registry plan).step_results,
        x.status = StepStatus.completed ∨ x.status = StepStatus.failed := by
      intro x hx
      have := List.all_eq_true.mp (C6_run_resolves_every_step registry plan).1
        x hx
      rcases Bool.or_eq_true_iff.mp this with h | h
      · exact Or.inl (by simpa using h)
      · exact Or.inr (by simpa using h)
    rcases hst r hr with hc | hc
    · exact absurd (by simp [hc]) hnc
    · exact hc
  obtain ⟨s, hs⟩ := mem_zip_right plan.steps
    (ExecutorAgent.run registry plan).step_results r hlen.symm hr
  have hmem : (s, r) ∈ (plan.steps.zip
      (ExecutorAgent.run registry plan).step_results).filter
      (fun p => p.2.status == StepStatus.failed) :=
    List.mem_filter.mpr ⟨hs, by simp [hfailed]⟩
  cases hf : (plan.steps.zip
      (ExecutorAgent.run registry plan).step_results).filter
      (fun p => p.2.status == StepStatus.failed) with
  | nil => rw [hf] at hmem; cases hmem
  | cons a as => rfl

/-- When there is at least one failed pair, `_retry_failed_steps` takes its
re-execution branch: its updated step list is the retry loop's output, its
`success`/`partial_success` are recomputed from that list, and its
verification is a fresh run of the verifier on the updated run result. -/
theorem retryFailedSteps_nonempty_spec (env : OrchestratorEnv) (task : String)
    (plan : ExecutionPlan) (execution : ExecutionResult)
    (verification : VerificationResult)
    (hne : ((plan.steps.zip execution.step_results).filter
      (fun p => p.2.status == StepStatus.failed)).isEmpty = false) :
    (AgentOrchestrator.retryFailedSteps env task plan execution verification
      ).1.step_results =
      retryLoop env.registry
        ((plan.steps.zip execution.step_results).filter
          (fun p => p.2.status == StepStatus.failed))
        execution.step_results ∧
    (AgentOrchestrator.retryFailedSteps env task plan execution verification
      ).2 =
      env.verifier task
        (AgentOrchestrator.retryFailedSteps env task plan execution
          verification).1 ∧
    (AgentOrchestrator.retryFailedSteps env task plan execution verification
      ).1.success =
      ((AgentOrchestrator.retryFailedSteps env task plan execution
          verification).1.step_results.countP
        (fun r => r.status == StepStatus.completed) ==
        (AgentOrchestrator.retryFailedSteps env task plan execution
          verification).1.step_results.length) ∧
    (AgentOrchestrator.retryFailedSteps env task plan execution verification
      ).1.partial_success =
      (decide (0 < (AgentOrchestrator.retryFailedSteps env task plan execution
          verification).1.step_results.countP
        (fun r => r.status == StepStatus.completed)) &&
        !(AgentOrchestrator.retryFailedSteps env task plan execution
          verification).1.success) := by
  simp only [AgentOrchestrator.retryFailedSteps, hne, Bool.false_eq_true,
    if_false, List.countP_eq_length_filter]
  exact ⟨by first | rfl | trivial, by first | rfl | trivial,
    by first | rfl | trivial, by first | rfl | trivial⟩

/-- C4: within one pipeline run, recovery is entered exactly when the run
was unsuccessful and the verification scored strictly below 1.0: a run with
`success` never enters recovery (the response carries the original execution
and verification untouched, as it does whenever the gate condition fails);
when the gate holds, the response carries the recovery phase's updated
execution — whose `success`/`partial_success` are recomputed from the
updated step list — and a fresh verification of that updated execution,
replacing the earlier one; and the response's `success` is always
`verification.is_valid AND execution.success`. -/
theorem C4_recovery_gate (env : OrchestratorEnv) (task : String)
    (plan : ExecutionPlan) (exec0 : ExecutionResult)
    (ver0 : VerificationResult) (hplan : plan = env.planner task)
    (hexec : exec0 = ExecutorAgent.run env.registry plan)
    (hver : ver0 = env.verifier task exec0) :
    (exec0.success = true →
      AgentOrchestrator.run env task =
        { task := task, plan := plan, execution := exec0,
          verification := ver0,
          success := ver0.is_valid && exec0.success }) ∧
    (¬(exec0.success = false ∧ ver0.completeness_score < 1) →
      (AgentOrchestrator.run env task).execution = exec0 ∧
      (AgentOrchestrator.run env task).verification = ver0) ∧
    (exec0.success = false → ver0.completeness_score < 1 →
      (AgentOrchestrator.run env task).execution =
        (AgentOrchestrator.retryFailedSteps env task plan exec0 ver0).1 ∧
      (AgentOrchestrator.run env task).verification =
        env.verifier task
          (AgentOrchestrator.retryFailedSteps env task plan exec0 ver0).1 ∧
      (AgentOrchestrator.retryFailedSteps env task plan exec0 ver0).1.success =
        ((AgentOrchestrator.retryFailedSteps env task plan exec0 ver0
            ).1.step_results.countP
          (fun r => r.status == StepStatus.completed) ==
          (AgentOrchestrator.retryFailedSteps env task plan exec0 ver0
            ).1.step_results.length) ∧
      (AgentOrchestrator.retryFailedSteps env task plan exec0 ver0
        ).1.partial_success =
        (decide (0 < (AgentOrchestrator.retryFailedSteps env task plan exec0
            ver0).1.step_results.countP
          (fun r => r.status == StepStatus.completed)) &&
          !(AgentOrchestrator.retryFailedSteps env task plan exec0 ver0
            ).1.success)) ∧
    (AgentOrchestrator.run env task).success =
      ((AgentOrchestrator.run env task).verification.is_valid &&
        (AgentOrchestrator.run env task).execution.success) := by
  have hrun : AgentOrchestrator.run env task =
      { task := task, plan := plan,
        execution :=
          (if !exec0.success && decide (ver0.completeness_score < 1) then
            AgentOrchestrator.retryFailedSteps env task plan exec0 ver0
          else (exec0, ver0)).1,
        verification :=
          (if !exec0.success && decide (ver0.completeness_score < 1) then
            AgentOrchestrator.retryFailedSteps env task plan exec0 ver0
          else (exec0, ver0)).2,
        success :=
          (if !exec0.success && decide (ver0.completeness_score < 1) then
            AgentOrchestrator.retryFailedSteps env task plan exec0 ver0
          else (exec0, ver0)).2.is_valid &&
          (if !exec0.success && decide (ver0.completeness_score < 1) then
            AgentOrchestrator.retryFailedSteps env task plan exec0 ver0
          else (exec0, ver0)).1.success } := by
    rw [AgentOrchestrator.run, ← hplan, ← hexec, ← hver]
  refine ⟨?_, ?_, ?_, ?_⟩
  · intro hs
    rw [hrun]
    simp [hs]
  · intro hgate
    have hcond : (!exec0.success &&
        decide (ver0.completeness_score < 1)) = false := by
      by_cases hs : exec0.success = true
      · simp [hs]
      · rw [Bool.not_eq_true] at hs
        simp only [hs, Bool.not_false, Bool.true_and, decide_eq_false_iff_not]
        intro hv
        exact hgate ⟨hs, hv⟩
    rw [hrun]
    simp [hcond]
  · intro hs hv
    have hne : ((plan.steps.zip exec0.step_results).filter
        (fun p => p.2.status == StepStatus.failed)).isEmpty = false := by
      rw [hexec]
      exact run_failed_steps_nonempty env.registry plan (by rw [← hexec]; exact hs)
    have hspec := retryFailedSteps_nonempty_spec env task plan exec0 ver0 hne
    have hcond : (!exec0.success &&
        decide (ver0.completeness_score < 1)) = true := by
      simp [hs, hv]
    rw [hrun]
    simp only [hcond, if_true]
    exact ⟨by first | rfl | trivial, hspec.2.1, hspec.2.2.1, hspec.2.2.2⟩
  · rw [hrun]

/-- A constant verification used by the C4 witness environment (modelling a
text-generation verifier that returns a fixed low score). -/
def C4wVer : VerificationResult :=
  { is_valid := false, completeness_score := 0, issues := [],
    suggestions := [], final_output := { summary := "", data := [] },
    formatted_response := "" }

/-- The concrete orchestrator environment of the C4 witness: an empty
registry, a planner returning one GitHub step, and a constant verifier. -/
def C4wEnv : OrchestratorEnv :=
  { registry := fun _ => none,
    planner := fun _ =>
      { task_summary := "t",
        steps :=
          [{ step_number := 1, description := "d", tool := ToolType.github,
             parameters := [], depends_on := [] }],
        reasoning := "r" },
    verifier := fun _ _ => C4wVer }

/-- Witness for C4 at a concrete input: a failing one-step run with a
verification score of 0 enters recovery, and the response carries the
recovered execution, a re-run verification, recomputed flags, and
`success = is_valid AND execution.success`. -/
theorem C4_witness :
    ((AgentOrchestrator.run C4wEnv "t").execution =
      (AgentOrchestrator.retryFailedSteps C4wEnv "t" (C4wEnv.planner "t")
        (ExecutorAgent.run C4wEnv.registry (C4wEnv.planner "t"))
        (C4wEnv.verifier "t"
          (ExecutorAgent.run C4wEnv.registry (C4wEnv.planner "t")))).1 ∧
      (AgentOrchestrator.run C4wEnv "t").verification =
        C4wEnv.verifier "t"
          (AgentOrchestrator.retryFailedSteps C4wEnv "t" (C4wEnv.planner "t")
            (ExecutorAgent.run C4wEnv.registry (C4wEnv.planner "t"))
            (C4wEnv.verifier "t"
              (ExecutorAgent.run C4wEnv.registry (C4wEnv.planner "t")))).1 ∧
      (AgentOrchestrator.retryFailedSteps C4wEnv "t" (C4wEnv.planner "t")
        (ExecutorAgent.run C4wEnv.registry (C4wEnv.planner "t"))
        (C4wEnv.verifier "t"
          (ExecutorAgent.run C4wEnv.registry (C4wEnv.planner "t")))
        ).1.success =
        ((AgentOrchestrator.retryFailedSteps C4wEnv "t" (C4wEnv.planner "t")
          (ExecutorAgent.run C4wEnv.registry (C4wEnv.planner "t"))
          (C4wEnv.verifier "t"
            (ExecutorAgent.run C4wEnv.registry (C4wEnv.planner "t")))
          ).1.step_results.countP
          (fun r => r.status == StepStatus.completed) ==
          (AgentOrchestrator.retryFailedSteps C4wEnv "t" (C4wEnv.planner "t")
            (ExecutorAgent.run C4wEnv.registry (C4wEnv.planner "t"))
            (C4wEnv.verifier "t"
              (ExecutorAgent.run C4wEnv.registry (C4wEnv.planner "t")))
            ).1.step_results.length) ∧
      (AgentOrchestrator.retryFailedSteps C4wEnv "t" (C4wEnv.planner "t")
        (ExecutorAgent.run C4wEnv.registry (C4wEnv.planner "t"))
        (C4wEnv.verifier "t"
          (ExecutorAgent.run C4wEnv.registry (C4wEnv.planner "t")))
        ).1.partial_success =
        (decide (0 < (AgentOrchestrator.retryFailedSteps C4wEnv "t"
            (C4wEnv.planner "t")
            (ExecutorAgent.run C4wEnv.registry (C4wEnv.planner "t"))
            (C4wEnv.verifier "t"
              (ExecutorAgent.run C4wEnv.registry (C4wEnv.planner "t")))
            ).1.step_results.countP
            (fun r => r.status == StepStatus.completed)) &&
          !(AgentOrchestrator.retryFailedSteps C4wEnv "t" (C4wEnv.planner "t")
            (ExecutorAgent.run C4wEnv.registry (C4wEnv.planner "t"))
            (C4wEnv.verifier "t"
              (ExecutorAgent.run C4wEnv.registry (C4wEnv.planner "t")))
            ).1.success)) ∧
    (AgentOrchestrator.run C4wEnv "t").success =
      ((AgentOrchestrator.run C4wEnv "t").verification.is_valid &&
        (AgentOrchestrator.run C4wEnv "t").execution.success) :=
  ⟨(C4_recovery_gate C4wEnv "t" (C4wEnv.planner "t")
      (ExecutorAgent.run C4wEnv.registry (C4wEnv.planner "t"))
      (C4wEnv.verifier "t"
        (ExecutorAgent.run C4wEnv.registry (C4wEnv.planner "t")))
      rfl rfl rfl).2.2.1 rfl (by show (0 : Rat) < 1; norm_num),
   (C4_recovery_gate C4wEnv "t" (C4wEnv.planner "t")
      (ExecutorAgent.run C4wEnv.registry (C4wEnv.planner "t"))
      (C4wEnv.verifier "t"
        (ExecutorAgent.run C4wEnv.registry (C4wEnv.planner "t")))
      rfl rfl rfl).2.2.2⟩

/-- The registry of the C1 counterexample: the GitHub tool is absent, the
Weather tool succeeds immediately. -/
def C1Registry : Registry := fun t =>
  match t with
  | ToolType.github => none
  | ToolType.weather =>
      some (mkWeatherTool fun _ _ =>
        AttemptOutcome.ok { tool := ToolType.weather, success := true })

/-- The two-step plan of the C1 counterexample: step 2 depends on step 1,
whose tool is missing from the registry. -/
def C1Plan : ExecutionPlan :=
  { task_summary := "t",
    steps :=
      [{ step_number := 1, description := "a", tool := ToolType.github,
         parameters := [], depends_on := [] },
       { step_number := 2, description := "b", tool := ToolType.weather,
         parameters := [], depends_on := [1] }],
    reasoning := "r" }

/-- The initial run of the C1 counterexample plan. -/
def C1Exec : ExecutionResult := ExecutorAgent.run C1Registry C1Plan

/-- The orchestrator environment of the C1 counterexample. -/
def C1Env : OrchestratorEnv :=
  { registry := C1Registry, planner := fun _ => C1Plan,
    verifier := VerifierAgent.createFallbackVerification }

/-- C1 counterexample: in the initial run, step 2 fails with "Dependencies
not met" (its dependency, step 1, failed with "Tool not found"); the claim
says recovery evaluates step 2 against that original — unmet — dependency
snapshot, which would leave it FAILED, but the recovery phase actually
re-executes step 2's tool with no dependency check at all and records it
COMPLETED. -/
theorem C1_counterexample :
    C1Exec.step_results.get? 1 =
      some { step_number := 2, status := StepStatus.failed,
             tool_result := none, retry_count := 0,
             error_message := some "Dependencies not met" } ∧
    (AgentOrchestrator.retryFailedSteps C1Env "t" C1Plan C1Exec
        (VerifierAgent.createFallbackVerification "t" C1Exec)
      ).1.step_results.get? 1 =
      some { step_number := 2, status := StepStatus.completed,
             tool_result := some { tool := ToolType.weather, success := true,
                                   data := none, error := none },
             retry_count := 0, error_message := none } :=
  ⟨rfl, rfl⟩

/-- In-place replacement keeps the list length. -/
theorem replaceByStepNumber_length :
    ∀ (rs : List StepResult) (n : Nat) (new : StepResult),
      (replaceByStepNumber rs n new).length = rs.length := by
  intro rs
  induction rs with
  | nil => intro n new; rfl
  | cons r rest ih =>
      intro n new
      simp only [replaceByStepNumber]
      by_cases h : (r.step_number == n) = true
      · simp [h]
      · rw [Bool.not_eq_true] at h
        simp [h, ih]

/-- Replacing by a step number with a result carrying that same number keeps
the list's step-number sequence. -/
theorem replaceByStepNumber_map_num :
    ∀ (rs : List StepResult) (n : Nat) (new : StepResult),
      new.step_number = n →
      (replaceByStepNumber rs n new).map (fun r => r.step_number) =
        rs.map (fun r => r.step_number) := by
  intro rs
  induction rs with
  | nil => intro n new _; rfl
  | cons r rest ih =>
      intro n new hnum
      simp only [replaceByStepNumber]
      by_cases h : (r.step_number == n) = true
      · have : r.step_number = n := by simpa using h
        simp [h, hnum, this]
      · rw [Bool.not_eq_true] at h
        simp [h, ih _ _ hnum]

/-- With pairwise-distinct step numbers, replacement by step number is
exactly a positional update at the position carrying that number. -/
theorem replaceByStepNumber_get :
    ∀ (rs : List StepResult) (n : Nat) (new : StepResult),
      new.step_number = n →
      ((rs.map fun r => r.step_number).Nodup) →
      ∀ i (h : i < rs.length)
        (h2 : i < (replaceByStepNumber rs n new).length),
        (replaceByStepNumber rs n new).get ⟨i, h2⟩ =
          if (rs.get ⟨i, h⟩).step_number = n then new else rs.get ⟨i, h⟩ := by
  intro rs
  induction rs with
  | nil => intro n new _ _ i h; simp at h
  | cons r rest ih =>
      intro n new hnum hnodup i h h2
      rw [List.map_cons, List.nodup_cons] at hnodup
      by_cases hrn : r.step_number = n
      · cases i with
        | zero => simp [replaceByStepNumber, hrn]
        | succ j =>
            have hj : j < rest.length := by simpa using h
            have hne : (rest[j]).step_number ≠ n := by
              intro habs
              apply hnodup.1
              rw [hrn, ← habs]
              exact List.mem_map.mpr ⟨rest[j], List.getElem_mem hj, rfl⟩
            simp [replaceByStepNumber, hrn, hne]
      · cases i with
        | zero => simp [replaceByStepNumber, hrn]
        | succ j =>
            have hj : j < rest.length := by simpa using h
            have hj2 : j < (replaceByStepNumber rest n new).length := by
              rw [replaceByStepNumber_length]
              exact hj
            have hstep := ih n new hnum hnodup.2 j hj hj2
            simpa [replaceByStepNumber, hrn] using hstep

/-- The recovery retry loop keeps the list length. -/
theorem retryLoop_length (registry : Registry) :
    ∀ (pairs : List (PlanStep × StepResult)) (rs : List StepResult),
      (retryLoop registry pairs rs).length = rs.length := by
  intro pairs
  induction pairs with
  | nil => intro rs; rfl
  | cons p rest ih =>
      intro rs
      cases p with
      | mk step old =>
          simp only [retryLoop]
          rw [ih, replaceByStepNumber_length]

/-- The recovery retry loop keeps the list's step-number sequence. -/
theorem retryLoop_map_num (registry : Registry) :
    ∀ (pairs : List (PlanStep × StepResult)) (rs : List StepResult),
      (retryLoop registry pairs rs).map (fun r => r.step_number) =
        rs.map (fun r => r.step_number) := by
  intro pairs
  induction pairs with
  | nil => intro rs; rfl
  | cons p rest ih =>
      intro rs
      cases p with
      | mk step old =>
          simp only [retryLoop]
          rw [ih, replaceByStepNumber_map_num _ _ _
            (executeStep_step_number registry step)]

/-- Positional form of a mapped list lookup. -/
theorem get_map_helper {α β : Type} (f : α → β) (l : List α) (i : Nat)
    (h : i < l.length) (h2 : i < (l.map f).length) :
    (l.map f).get ⟨i, h2⟩ = f (l.get ⟨i, h⟩) := by
  simp

/-- The recovery retry loop, positionally: with pairwise-distinct step
numbers in both the result list and the collected pairs, position `i` of the
loop's output is the once-re-executed step of the pair carrying that
position's step number when there is one, and the untouched old result
otherwise. -/
theorem retryLoop_get (registry : Registry) :
    ∀ (pairs : List (PlanStep × StepResult)) (rs : List StepResult),
      ((rs.map fun r => r.step_number).Nodup) →
      ((pairs.map fun p => p.1.step_number).Nodup) →
      ∀ i (h : i < rs.length) (h2 : i < (retryLoop registry pairs rs).length),
        (retryLoop registry pairs rs).get ⟨i, h2⟩ =
          match pairs.find? (fun p =>
            p.1.step_number == (rs.get ⟨i, h⟩).step_number) with
          | some p => executeStep registry p.1
          | none => rs.get ⟨i, h⟩ := by
  intro pairs
  induction pairs with
  | nil => intro rs _ _ i h h2; rfl
  | cons p rest ih =>
      intro rs hrs hpairs i h h2
      cases p with
      | mk step old =>
          rw [List.map_cons, List.nodup_cons] at hpairs
          have hmap : (replaceByStepNumber rs step.step_number
              (executeStep registry step)).map (fun r => r.step_number) =
              rs.map (fun r => r.step_number) :=
            replaceByStepNumber_map_num _ _ _
              (executeStep_step_number registry step)
          have hlen : (replaceByStepNumber rs step.step_number
              (executeStep registry step)).length = rs.length :=
            replaceByStepNumber_length _ _ _
          have hrs2 : ((replaceByStepNumber rs step.step_number
              (executeStep registry step)).map fun r => r.step_number).Nodup :=
            by rw [hmap]; exact hrs
          have h' : i < (replaceByStepNumber rs step.step_number
              (executeStep registry step)).length := by rw [hlen]; exact h
          have h2' : i < (retryLoop registry rest (replaceByStepNumber rs
              step.step_number (executeStep registry step))).length := by
            rw [retryLoop_length, hlen]
            exact h
          have hget := replaceByStepNumber_get rs step.step_number
            (executeStep registry step) (executeStep_step_number registry step)
            hrs i h h'
          have hnum_eq : ((replaceByStepNumber rs step.step_number
              (executeStep registry step)).get ⟨i, h'⟩).step_number =
              (rs.get ⟨i, h⟩).step_number := by
            by_cases hc : (rs.get ⟨i, h⟩).step_number = step.step_number
            · rw [hget, if_pos hc, executeStep_step_number, hc]
            · rw [hget, if_neg hc]
          have hih := ih (replaceByStepNumber rs step.step_number
            (executeStep registry step)) hrs2 hpairs.2 i h' h2'
          rw [hnum_eq] at hih
          have hlhs : (retryLoop registry ((step, old) :: rest) rs).get
              ⟨i, h2⟩ = (retryLoop registry rest (replaceByStepNumber rs
              step.step_number (executeStep registry step))).get ⟨i, h2'⟩ :=
            rfl
          rw [hlhs, hih]
          by_cases hb : (step.step_number == (rs.get ⟨i, h⟩).step_number) =
              true
          · have hbe : step.step_number = (rs.get ⟨i, h⟩).step_number := by
              simpa using hb
            have hrestnone : rest.find? (fun p =>
                p.1.step_number == (rs.get ⟨i, h⟩).step_number) = none := by
              rw [List.find?_eq_none]
              intro q hq habs
              apply hpairs.1
              have hqn : q.1.step_number = (rs.get ⟨i, h⟩).step_number := by
                simpa using habs
              rw [hbe, ← hqn]
              exact List.mem_map.mpr ⟨q, hq, rfl⟩
            rw [hrestnone]
            simp only [List.find?_cons, hb]
            simp only [hget, if_pos hbe.symm]
          · rw [Bool.not_eq_true] at hb
            simp only [List.find?_cons, hb]
            cases hf : rest.find? (fun p =>
                p.1.step_number == (rs.get ⟨i, h⟩).step_number) with
            | some q => rfl
            | none =>
                have hbe2 : (rs.get ⟨i, h⟩).step_number ≠ step.step_number :=
                  by
                    intro habs
                    rw [habs, beq_self_eq_true] at hb
                    cases hb
                simp only [hget, if_neg hbe2]

/-- C1 (amended): for each step whose recorded result is FAILED, the recovery
phase re-invokes the Step Executor exactly once and splices the new result in
place of the old entry, matched by step_number; but no dependency snapshot is
consulted at all — the recovery result of a failed step is
`executeStep registry step`, a function of the step and the registry alone,
so a step that originally failed with "Dependencies not met" simply has its
tool invoked directly.  Stated positionally for a run whose step results
align with the plan's steps and whose step numbers are pairwise distinct. -/
theorem C1_amended_recovery_ignores_dependencies (env : OrchestratorEnv)
    (task : String) (plan : ExecutionPlan) (execution : ExecutionResult)
    (verification : VerificationResult)
    (halign : execution.step_results.map (fun r => r.step_number) =
      plan.steps.map (fun s => s.step_number))
    (hnodup : (plan.steps.map fun s => s.step_number).Nodup) :
    ∀ i (h1 : i < execution.step_results.length)
      (h2 : i < plan.steps.length),
      (AgentOrchestrator.retryFailedSteps env task plan execution
        verification).1.step_results.get? i =
        some (if (execution.step_results.get ⟨i, h1⟩).status =
            StepStatus.failed
          then executeStep env.registry (plan.steps.get ⟨i, h2⟩)
          else execution.step_results.get ⟨i, h1⟩) := by
  intro i h1 h2
  have hrs_nodup : (execution.step_results.map fun r => r.step_number).Nodup
    := by rw [halign]; exact hnodup
  have hlen : execution.step_results.length = plan.steps.length := by
    have hc := congrArg List.length halign
    simpa using hc
  have hzlen : (plan.steps.zip execution.step_results).length =
      plan.steps.length := by
    rw [List.length_zip, hlen, Nat.min_self]
  have hzi : i < (plan.steps.zip execution.step_results).length := by
    rw [hzlen]; exact h2
  have hml : i < (execution.step_results.map
      fun r => r.step_number).length := by simpa using h1
  have hptw : (execution.step_results.get ⟨i, h1⟩).step_number =
      (plan.steps.get ⟨i, h2⟩).step_number := by
    have hge := List.get_of_eq halign ⟨i, hml⟩
    simpa using hge
  have hzget : (plan.steps.zip execution.step_results).get ⟨i, hzi⟩ =
      (plan.steps.get ⟨i, h2⟩, execution.step_results.get ⟨i, h1⟩) := by
    simp [List.getElem_zip]
  have hpairs_nodup : (((plan.steps.zip execution.step_results).filter
      (fun p => p.2.status == StepStatus.failed)).map
      fun p => p.1.step_number).Nodup := by
    have hsub : (((plan.steps.zip execution.step_results).filter
        (fun p => p.2.status == StepStatus.failed)).map
        fun p => p.1.step_number).Sublist
        ((plan.steps.zip execution.step_results).map
        fun p => p.1.step_number) :=
      List.Sublist.map _ (List.filter_sublist _)
    have hfst : (plan.steps.zip execution.step_results).map Prod.fst =
        plan.steps := List.map_fst_zip _ _ (le_of_eq hlen.symm)
    have hzm : ((plan.steps.zip execution.step_results).map
        fun p => p.1.step_number) = plan.steps.map fun s => s.step_number := by
      calc ((plan.steps.zip execution.step_results).map
            fun p => p.1.step_number)
          = ((plan.steps.zip execution.step_results).map Prod.fst).map
              (fun s => s.step_number) := by rw [List.map_map]; rfl
        _ = plan.steps.map (fun s => s.step_number) := by rw [hfst]
    rw [hzm] at hsub
    exact List.Nodup.sublist hsub hnodup
  have huniq : ∀ q ∈ plan.steps.zip execution.step_results,
      q.1.step_number = (execution.step_results.get ⟨i, h1⟩).step_number →
      q = (plan.steps.get ⟨i, h2⟩, execution.step_results.get ⟨i, h1⟩) := by
    intro q hq hqn
    obtain ⟨⟨j, hj⟩, hqj⟩ := List.mem_iff_get.mp hq
    have hj2 : j < plan.steps.length := by rw [← hzlen]; exact hj
    have hj1 : j < execution.step_results.length := by rw [hlen]; exact hj2
    have hzj : (plan.steps.zip execution.step_results).get ⟨j, hj⟩ =
        (plan.steps.get ⟨j, hj2⟩, execution.step_results.get ⟨j, hj1⟩) := by
      simp [List.getElem_zip]
    rw [hzj] at hqj
    have hnums : (plan.steps.get ⟨j, hj2⟩).step_number =
        (plan.steps.get ⟨i, h2⟩).step_number := by
      rw [← hqj] at hqn
      rw [hptw] at hqn
      simpa using hqn
    have hmj : j < (plan.steps.map fun s => s.step_number).length := by
      simpa using hj2
    have hmi : i < (plan.steps.map fun s => s.step_number).length := by
      simpa using h2
    have hgg : (plan.steps.map fun s => s.step_number).get ⟨j, hmj⟩ =
        (plan.steps.map fun s => s.step_number).get ⟨i, hmi⟩ := by
      rw [get_map_helper _ _ j hj2 hmj, get_map_helper _ _ i h2 hmi]
      exact hnums
    have hfin := (List.Nodup.get_inj_iff hnodup).mp hgg
    have hji : j = i := congrArg Fin.val hfin
    subst hji
    rw [← hqj]
  by_cases hfail : (execution.step_results.get ⟨i, h1⟩).status =
      StepStatus.failed
  · have hmem : (plan.steps.get ⟨i, h2⟩,
        execution.step_results.get ⟨i, h1⟩) ∈
        (plan.steps.zip execution.step_results).filter
        (fun p => p.2.status == StepStatus.failed) := by
      refine List.mem_filter.mpr ⟨?_, by simpa using hfail⟩
      rw [← hzget]
      exact List.get_mem _ _ _
    have hne : ((plan.steps.zip execution.step_results).filter
        (fun p => p.2.status == StepStatus.failed)).isEmpty = false := by
      cases hp : (plan.steps.zip execution.step_results).filter
          (fun p => p.2.status == StepStatus.failed) with
      | nil => rw [hp] at hmem; cases hmem
      | cons a l => rfl
    have hspec := (retryFailedSteps_nonempty_spec env task plan execution
      verification hne).1
    have hri : i < (retryLoop env.registry
        ((plan.steps.zip execution.step_results).filter
          fun p => p.2.status == StepStatus.failed)
        execution.step_results).length := by
      rw [retryLoop_length]
      exact h1
    have hrg := retryLoop_get env.registry _ execution.step_results hrs_nodup
      hpairs_nodup i h1 hri
    have hfind : ((plan.steps.zip execution.step_results).filter
        (fun p => p.2.status == StepStatus.failed)).find?
        (fun p => p.1.step_number ==
          (execution.step_results.get ⟨i, h1⟩).step_number) =
        some (plan.steps.get ⟨i, h2⟩,
          execution.step_results.get ⟨i, h1⟩) := by
      cases hf : ((plan.steps.zip execution.step_results).filter
          (fun p => p.2.status == StepStatus.failed)).find?
          (fun p => p.1.step_number ==
            (execution.step_results.get ⟨i, h1⟩).step_number) with
      | none =>
          exfalso
          have hnone := List.find?_eq_none.mp hf _ hmem
          apply hnone
          simp only [beq_iff_eq]
          exact hptw.symm
      | some q =>
          have hqmem := List.mem_of_find?_eq_some hf
          have hqsel := List.find?_some hf
          have hqzip : q ∈ plan.steps.zip execution.step_results :=
            List.mem_of_mem_filter hqmem
          have hqn : q.1.step_number =
              (execution.step_results.get ⟨i, h1⟩).step_number := by
            simpa using hqsel
          rw [huniq q hqzip hqn]
    rw [hspec, List.get?_eq_get hri, hrg, hfind, if_pos hfail]
  · by_cases hemp : ((plan.steps.zip execution.step_results).filter
        (fun p => p.2.status == StepStatus.failed)).isEmpty = true
    · have hunch : AgentOrchestrator.retryFailedSteps env task plan execution
          verification = (execution, verification) := by
        simp only [AgentOrchestrator.retryFailedSteps, hemp, if_true]
      rw [hunch, List.get?_eq_get h1, if_neg hfail]
    · rw [Bool.not_eq_true] at hemp
      have hspec := (retryFailedSteps_nonempty_spec env task plan execution
        verification hemp).1
      have hri : i < (retryLoop env.registry
          ((plan.steps.zip execution.step_results).filter
            fun p => p.2.status == StepStatus.failed)
          execution.step_results).length := by
        rw [retryLoop_length]
        exact h1
      have hrg := retryLoop_get env.registry _ execution.step_results
        hrs_nodup hpairs_nodup i h1 hri
      have hfind : ((plan.steps.zip execution.step_results).filter
          (fun p => p.2.status == StepStatus.failed)).find?
          (fun p => p.1.step_number ==
            (execution.step_results.get ⟨i, h1⟩).step_number) = none := by
        rw [List.find?_eq_none]
        intro q hqmem habs
        have hqzip : q ∈ plan.steps.zip execution.step_results :=
          List.mem_of_mem_filter hqmem
        have hqn : q.1.step_number =
            (execution.step_results.get ⟨i, h1⟩).step_number := by
          simpa using habs
        have hq := huniq q hqzip hqn
        have hqf := (List.mem_filter.mp hqmem).2
        rw [hq] at hqf
        exact hfail (by simpa using hqf)
      rw [hspec, List.get?_eq_get hri, hrg, hfind, if_neg hfail]

/-- Witness for the amended C1 at a concrete input: in the counterexample
scenario, position 1 (the step that originally failed with "Dependencies not
met") is replaced by the dependency-free re-execution of its step. -/
theorem C1_witness :
    (AgentOrchestrator.retryFailedSteps C1Env "t" C1Plan C1Exec
        (VerifierAgent.createFallbackVerification "t" C1Exec)
      ).1.step_results.get? 1 =
      some (if (C1Exec.step_results.get ⟨1, by decide⟩).status =
          StepStatus.failed
        then executeStep C1Env.registry (C1Plan.steps.get ⟨1, by decide⟩)
        else C1Exec.step_results.get ⟨1, by decide⟩) :=
  C1_amended_recovery_ignores_dependencies C1Env "t" C1Plan C1Exec
    (VerifierAgent.createFallbackVerification "t" C1Exec)
    (by decide) (by decide) 1 (by decide) (by decide)
